import Mathlib

/-!
Shallow embedding of the CityCircuit ML service core algorithms
(`ML/server/algorithms/*.py` and the data model in `ML/server/models/*.py`),
together with proofs of the specification's testable properties.

Modelling conventions:
* Python floats are embedded as `ℚ`; Python ints as `ℤ` or `ℕ` (pydantic
  enforces non-negative counts, so passenger counts and populations are `ℕ`).
* The haversine distance is transcendental, so every function that calls
  `_calculate_distance` takes the distance function as an explicit parameter
  `dist : Coordinates → Coordinates → ℚ`; theorems that need a concrete fact
  about the haversine function (such as `dist c c = 0`) take it as a
  hypothesis.
* Python's `float('inf')` is embedded as `(⊤ : WithTop ℚ)`.
* Fresh UUIDs drawn by pydantic default factories are modelled as an oracle
  parameter; no claim depends on their values.
-/

/-- `models/base.py` `Coordinates`: latitude/longitude pair (floats → `ℚ`). -/
structure Coordinates where
  latitude : ℚ
  longitude : ℚ
deriving DecidableEq, Repr

/-- `models/base.py` `GeoBounds`: geographic bounding box. -/
structure GeoBounds where
  north : ℚ
  south : ℚ
  east : ℚ
  west : ℚ
deriving DecidableEq, Repr

/-- `models/route.py` `BusStop`. The pydantic-generated `id` is an explicit field. -/
structure BusStop where
  id : String
  name : String
  coordinates : Coordinates
  address : String
  amenities : List String
  daily_passenger_count : ℕ
  is_accessible : Bool
deriving DecidableEq, Repr

instance : Inhabited BusStop :=
  ⟨{ id := "", name := "", coordinates := ⟨0, 0⟩, address := "", amenities := [],
     daily_passenger_count := 0, is_accessible := false }⟩

/-- `models/route.py` `Route`. Timestamps (`created_at`, `updated_at`) are not read
by any core algorithm and are omitted. `estimated_travel_time` is a Python int. -/
structure Route where
  id : String
  name : String
  description : String
  stops : List BusStop
  operator_id : String
  is_active : Bool
  optimization_score : ℚ
  estimated_travel_time : ℤ
deriving DecidableEq, Repr

/-- `models/population.py` `DemographicData`: the two dicts are association lists. -/
structure DemographicData where
  age_groups : List (String × ℚ)
  economic_indicators : List (String × ℚ)
deriving DecidableEq, Repr

/-- `models/population.py` `DensityPoint`. -/
structure DensityPoint where
  coordinates : Coordinates
  population : ℕ
  demographic_data : DemographicData
deriving DecidableEq, Repr

/-- `models/population.py` `PopulationDensityData`. The `data_source` label and the
collection timestamp are not read by any core algorithm and are omitted. -/
structure PopulationDensityData where
  region : String
  coordinates : GeoBounds
  density_points : List DensityPoint
deriving DecidableEq, Repr

/-- `models/optimization.py` `OptimizationMetrics`. -/
structure OptimizationMetrics where
  time_improvement : ℚ
  distance_reduction : ℚ
  passenger_coverage_increase : ℚ
  cost_savings : ℚ
deriving DecidableEq, Repr

/-- `OptimizationMetrics.get_overall_score`: fixed weighted sum
(time 0.3, distance 0.2, coverage 0.3, cost 0.2 with the cost term capped at
100 before weighting), the total capped at 100. -/
def OptimizationMetrics.get_overall_score (m : OptimizationMetrics) : ℚ :=
  min (m.time_improvement * (3/10) + m.distance_reduction * (2/10) +
       m.passenger_coverage_increase * (3/10) + min m.cost_savings 100 * (2/10)) 100

/-- `models/optimization.py` `OptimizationResult`. The `generated_at` timestamp is
not read by the ranking code and is omitted. -/
structure OptimizationResult where
  original_route_id : String
  optimized_route : Route
  metrics : OptimizationMetrics
  population_data : PopulationDensityData
deriving DecidableEq, Repr

/-! ## Path matrix (`algorithms/path_matrix.py`)

A `PathMatrix` carries the ordered stop-id list and the two square matrices,
embedded as index functions (entries outside the square are irrelevant: the
code only ever reads indices below `stop_ids.length`). -/

/-- `path_matrix.py` `PathMatrix`: stop-id list plus distance and time matrices.
The per-pair `segments` list, algorithm tag and timestamp are not read by the
path-finding and sequencing code under verification and are omitted. -/
structure PathMatrix where
  stop_ids : List String
  distance : ℕ → ℕ → ℚ
  time : ℕ → ℕ → ℚ

/-- Total distance along an index order: the loop
`for i in range(len(order)-1): total += distance_matrix[order[i], order[i+1]]`. -/
def pathCost (d : ℕ → ℕ → ℚ) : List ℕ → ℚ
  | a :: b :: rest => d a b + pathCost d (b :: rest)
  | _ => 0

/-- The loop body of `_brute_force_tsp`: the candidate order is the fixed
first stop followed by the permutation; a strictly smaller total distance
replaces the running best (so the first minimum in enumeration order is
kept). -/
def tspStep (d : ℕ → ℕ → ℚ) (firstStop : ℕ) (best : List ℕ × WithTop ℚ)
    (perm : List ℕ) : List ℕ × WithTop ℚ :=
  if (pathCost d (firstStop :: perm) : WithTop ℚ) < best.2 then
    (firstStop :: perm, (pathCost d (firstStop :: perm) : WithTop ℚ))
  else best

/-- `_brute_force_tsp`: fix the first requested stop, enumerate all permutations
of the remaining stops, and keep the first permutation (in enumeration order)
whose total consecutive distance is minimal. `best_distance = float('inf')`
is the `⊤` of the initial accumulator. -/
def brute_force_tsp (m : PathMatrix) (stopIds : List String) : List String :=
  match stopIds with
  | [] => []
  | _ :: _ =>
    let indices := (stopIds.filter (fun s => m.stop_ids.contains s)).map
      (fun s => m.stop_ids.indexOf s)
    if indices.length ≠ stopIds.length then stopIds
    else
      match indices with
      | [] => stopIds
      | firstStop :: remainingStops =>
        let best := remainingStops.permutations.foldl (tspStep m.distance firstStop)
          (firstStop :: remainingStops, ⊤)
        best.1.map (fun idx => m.stop_ids.getD idx "")

/-- Inner loop of `_nearest_neighbor_tsp`: repeatedly pick the unvisited stop
nearest to the current one (first minimum wins, as Python's `min` does) and
remove it from the unvisited pool. The fuel equals the pool size, which the
loop shrinks by one per iteration. -/
def nnLoop (d : ℕ → ℕ → ℚ) : ℕ → ℕ → List ℕ → List ℕ
  | 0, _, _ => []
  | _ + 1, _, [] => []
  | fuel + 1, current, u :: us =>
    let nearest := us.foldl (fun acc x => if d current x < d current acc then x else acc) u
    nearest :: nnLoop d fuel nearest ((u :: us).erase nearest)

/-- `_nearest_neighbor_tsp`: greedy nearest-neighbour order from the fixed first
stop. Python's `set(indices[1:])` is modelled by `dedup` (iteration order only
affects which of several equally-near stops is taken first). -/
def nearest_neighbor_tsp (m : PathMatrix) (stopIds : List String) : List String :=
  match stopIds with
  | [] => []
  | _ :: _ =>
    let indices := (stopIds.filter (fun s => m.stop_ids.contains s)).map
      (fun s => m.stop_ids.indexOf s)
    if indices.length ≠ stopIds.length then stopIds
    else
      match indices with
      | [] => stopIds
      | firstStop :: rest =>
        let unvisited := rest.dedup
        let route := firstStop :: nnLoop m.distance unvisited.length firstStop unvisited
        route.map (fun idx => m.stop_ids.getD idx "")

/-- `find_optimal_route_order`: simplified TSP dispatch — return tiny inputs
unchanged, brute force up to 8 stops, nearest-neighbour heuristic beyond. -/
def find_optimal_route_order (m : PathMatrix) (stopIds : List String) : List String :=
  if stopIds.length ≤ 2 then stopIds
  else if stopIds.length ≤ 8 then brute_force_tsp m stopIds
  else nearest_neighbor_tsp m stopIds

/-- Cost of a stop-id order measured on the matrix, resolving each id to its
(first) index exactly as `_brute_force_tsp` does via `list.index`. -/
def idPathCost (m : PathMatrix) (order : List String) : ℚ :=
  pathCost m.distance (order.map (fun s => m.stop_ids.indexOf s))

/-! ## Shortest path (`find_shortest_path`, Dijkstra) -/

/-- Mutable state of the Dijkstra loop: `visited`, `dist` and `parent` arrays,
embedded as index functions (`-1` sentinels become `Option`). -/
structure DijkstraState where
  visited : ℕ → Bool
  dist : ℕ → WithTop ℚ
  parent : ℕ → Option ℕ

/-- The minimum-distance unvisited vertex scan: track the running minimum
(started at `float('inf')`/`⊤`) and its index (started at `-1`/`none`);
only a strictly smaller finite distance replaces the minimum. -/
def findMinVertex (st : DijkstraState) (n : ℕ) : Option ℕ :=
  ((List.range n).foldl
    (fun (acc : Option ℕ × WithTop ℚ) v =>
      if st.visited v = false ∧ st.dist v < acc.2 then (some v, st.dist v) else acc)
    (none, ⊤)).1

/-- Army-style array write `xs[i] = v` on an index-function embedding. -/
def updFn (f : ℕ → α) (i : ℕ) (v : α) : ℕ → α :=
  fun j => if j = i then v else f j

/-- The relaxation pass: for every unvisited `v` with a positive matrix entry
from `u`, lower `dist v` through `u` when that is an improvement. -/
def relaxNeighbors (d : ℕ → ℕ → ℚ) (n : ℕ) (u : ℕ) (st : DijkstraState) : DijkstraState :=
  (List.range n).foldl
    (fun s v =>
      if s.visited v = false ∧ 0 < d u v ∧ s.dist u + (d u v : WithTop ℚ) < s.dist v then
        { s with dist := updFn s.dist v (s.dist u + (d u v : WithTop ℚ)),
                 parent := updFn s.parent v (some u) }
      else s)
    st

/-- The main Dijkstra loop (`for _ in range(n_stops)`): pick the nearest
unvisited vertex, stop when none is reachable, mark it visited and relax. -/
def dijkstraLoop (d : ℕ → ℕ → ℚ) (n : ℕ) : ℕ → DijkstraState → DijkstraState
  | 0, st => st
  | k + 1, st =>
    match findMinVertex st n with
    | none => st
    | some u =>
      let st' : DijkstraState := { st with visited := updFn st.visited u true }
      dijkstraLoop d n k (relaxNeighbors d n u st')

/-- Path reconstruction: follow `parent` pointers from the destination
(`while current != -1`), collecting stop ids. Dijkstra's parent pointers form
a forest, so the chain has length at most `n`; the fuel makes that explicit. -/
def reconstructPath (stopIds : List String) (parent : ℕ → Option ℕ) : ℕ → ℕ → List String
  | 0, _ => []
  | fuel + 1, current =>
    stopIds.getD current "" ::
      (match parent current with
       | none => []
       | some p => reconstructPath stopIds parent fuel p)

/-- The initial Dijkstra state: nothing visited, only the origin at distance 0
(`dist = [inf] * n; dist[origin_idx] = 0`), all parents `-1`. -/
def dijkstraInit (originIdx : ℕ) : DijkstraState :=
  { visited := fun _ => false,
    dist := updFn (fun _ => (⊤ : WithTop ℚ)) originIdx 0,
    parent := fun _ => none }

/-- The state after the full `for _ in range(n_stops)` Dijkstra loop starting
from `origin_id`. -/
def dijkstraRun (m : PathMatrix) (originId : String) : DijkstraState :=
  dijkstraLoop m.distance m.stop_ids.length m.stop_ids.length
    (dijkstraInit (m.stop_ids.indexOf originId))

/-- `find_shortest_path`: `None` when either id is absent from the matrix,
run Dijkstra over the distance matrix, `None` when the destination's distance
is still infinite, otherwise the reversed parent chain. -/
def find_shortest_path (m : PathMatrix) (originId destinationId : String) :
    Option (List String) :=
  if originId ∈ m.stop_ids ∧ destinationId ∈ m.stop_ids then
    let destinationIdx := m.stop_ids.indexOf destinationId
    let stF := dijkstraRun m originId
    if stF.dist destinationIdx = ⊤ then none
    else some (reconstructPath m.stop_ids stF.parent m.stop_ids.length destinationIdx).reverse
  else none

/-! ## Stable sorting

Python's `list.sort` is a stable sort. For a total preorder the stable sorted
permutation of a list is unique, so the insertion sort below has exactly the
semantics of the two `sort(key=...)` calls in `rank_optimization_results`. -/

/-- Insert `a` before the first element `b` with `le a b`; equal keys keep the
earlier element first, which is precisely stability. -/
def stableInsert (le : α → α → Bool) (a : α) : List α → List α
  | [] => [a]
  | b :: l => if le a b then a :: b :: l else b :: stableInsert le a l

/-- Stable insertion sort with respect to a boolean total preorder `le`. -/
def stableSort (le : α → α → Bool) : List α → List α
  | [] => []
  | a :: l => stableInsert le a (stableSort le l)

/-! ## Ranking engine (`algorithms/result_generator.py`, `RouteRankingEngine`) -/

/-- `result_generator.py` `RankingCriteria`. -/
inductive RankingCriteria where
  | time_efficiency
  | cost_effectiveness
  | passenger_coverage
  | accessibility
  | environmental_impact
  | overall_score
deriving DecidableEq, Repr

/-- `RouteRankingEngine._calculate_accessibility_score`: 70 % accessible-stop
ratio plus up to 30 points from accessibility amenities, capped at 100. -/
def calculate_accessibility_score (route : Route) : ℚ :=
  match route.stops with
  | [] => 0
  | _ :: _ =>
    let accessibleStops := (route.stops.filter (fun s => s.is_accessible)).length
    let accessibilityRatio : ℚ := (accessibleStops : ℚ) / route.stops.length
    let accessibilityAmenities := ["wheelchair_accessible", "tactile_paving", "audio_announcements"]
    let amenityScore := route.stops.foldl
      (fun acc s => acc + (s.amenities.filter (fun a => accessibilityAmenities.contains a)).length)
      (0 : ℕ)
    let avgAmenityScore : ℚ := (amenityScore : ℚ) / route.stops.length
    min (accessibilityRatio * 70 + min avgAmenityScore 3 * 10) 100

/-- `RouteRankingEngine._calculate_environmental_score`. -/
def calculate_environmental_score (result : OptimizationResult) : ℚ :=
  let distanceScore := result.metrics.distance_reduction * (6/10)
  let coverageScore := min (result.metrics.passenger_coverage_increase * (3/10)) 20
  let accessibilityScore := calculate_accessibility_score result.optimized_route * (1/10)
  min (distanceScore + coverageScore + accessibilityScore) 100

/-- `RouteRankingEngine._calculate_ranking_score`: criterion dispatch. The
`weights` argument of the Python method is never read on any branch. -/
def calculate_ranking_score (result : OptimizationResult) (criteria : RankingCriteria) : ℚ :=
  match criteria with
  | .time_efficiency => result.metrics.time_improvement
  | .cost_effectiveness => result.metrics.cost_savings
  | .passenger_coverage => result.metrics.passenger_coverage_increase
  | .accessibility => calculate_accessibility_score result.optimized_route
  | .environmental_impact => calculate_environmental_score result
  | .overall_score => result.metrics.get_overall_score

/-- `rank_optimization_results`: score every result, stable-sort ascending by
`original_route_id`, then stable-sort descending by score, and drop the scores. -/
def rank_optimization_results (results : List OptimizationResult)
    (criteria : RankingCriteria) : List OptimizationResult :=
  match results with
  | [] => []
  | _ :: _ =>
    let scoredResults := results.map (fun r => (r, calculate_ranking_score r criteria))
    let bySecondary := stableSort
      (fun a b => decide (a.1.original_route_id ≤ b.1.original_route_id)) scoredResults
    let byPrimary := stableSort (fun a b => decide (b.2 ≤ a.2)) bySecondary
    byPrimary.map (fun rs => rs.1)

/-! ## Weighted composite score (`_calculate_weighted_overall_score`) -/

/-- The caller-supplied weight dict: the method reads exactly these six keys
(`in weights` checks). An absent key is `none`. -/
structure WeightDict where
  time_improvement : Option ℚ
  distance_reduction : Option ℚ
  passenger_coverage : Option ℚ
  cost_savings : Option ℚ
  accessibility : Option ℚ
  environmental : Option ℚ
deriving DecidableEq, Repr

/-- The fixed default weight table used when the caller supplies no dict. -/
def defaultWeights : WeightDict :=
  { time_improvement := some (25/100),
    distance_reduction := some (20/100),
    passenger_coverage := some (25/100),
    cost_savings := some (15/100),
    accessibility := some (10/100),
    environmental := some (5/100) }

/-- `sum(weights.values())`: total of the present entries. -/
def WeightDict.total (w : WeightDict) : ℚ :=
  w.time_improvement.getD 0 + w.distance_reduction.getD 0 + w.passenger_coverage.getD 0 +
    w.cost_savings.getD 0 + w.accessibility.getD 0 + w.environmental.getD 0

/-- `weights = {k: v / total_weight for k, v in weights.items()}` guarded by
`total_weight > 0`: divide every present entry by the total. -/
def WeightDict.normalize (w : WeightDict) : WeightDict :=
  if 0 < w.total then
    { time_improvement := w.time_improvement.map (· / w.total),
      distance_reduction := w.distance_reduction.map (· / w.total),
      passenger_coverage := w.passenger_coverage.map (· / w.total),
      cost_savings := w.cost_savings.map (· / w.total),
      accessibility := w.accessibility.map (· / w.total),
      environmental := w.environmental.map (· / w.total) }
  else w

/-- One `if key in weights: score += value * weights[key]` step: the criterion
contributes only when its key is present. -/
def weightTerm (value : ℚ) (weight : Option ℚ) : ℚ :=
  match weight with
  | some wt => value * wt
  | none => 0

/-- The six `if key in weights` accumulations of
`_calculate_weighted_overall_score`. -/
def weightedScoreSum (result : OptimizationResult) (w : WeightDict) : ℚ :=
  0 + weightTerm result.metrics.time_improvement w.time_improvement +
    weightTerm result.metrics.distance_reduction w.distance_reduction +
    weightTerm result.metrics.passenger_coverage_increase w.passenger_coverage +
    weightTerm result.metrics.cost_savings w.cost_savings +
    weightTerm (calculate_accessibility_score result.optimized_route) w.accessibility +
    weightTerm (calculate_environmental_score result) w.environmental

/-- `_calculate_weighted_overall_score`: default the whole table only when no
dict is supplied, renormalize, accumulate the six weighted terms, cap at 100. -/
def calculate_weighted_overall_score (result : OptimizationResult)
    (weights : Option WeightDict) : ℚ :=
  let w0 := match weights with
    | none => defaultWeights
    | some w => w
  min (weightedScoreSum result w0.normalize) 100

/-- Modelled from the spec's words for comparison with the source (§4.10 /
claim C9): "missing weights default to a fixed table and are renormalized to
sum to 1 before use" — fill every absent criterion from the default table
first, then renormalize and compute the same capped weighted sum. -/
def weighted_overall_score_spec (result : OptimizationResult) (w : WeightDict) : ℚ :=
  let filled : WeightDict :=
    { time_improvement := some (w.time_improvement.getD (25/100)),
      distance_reduction := some (w.distance_reduction.getD (20/100)),
      passenger_coverage := some (w.passenger_coverage.getD (25/100)),
      cost_savings := some (w.cost_savings.getD (15/100)),
      accessibility := some (w.accessibility.getD (10/100)),
      environmental := some (w.environmental.getD (5/100)) }
  min (weightedScoreSum result filled.normalize) 100

/-! ## Route analyzer (`algorithms/route_analyzer.py`) -/

/-- A bottleneck record. The Python code builds heterogeneous dicts; the only
keys ever read downstream (`_remove_bottleneck_stops`) are `type` and
`severity`, so the descriptive keys (stop index, name, distance, text) are
not modelled. `type` is a Lean keyword, hence `btype`. -/
structure Bottleneck where
  btype : String
  severity : String
deriving DecidableEq, Repr

/-- `route_analyzer.py` `RouteAnalysisResult`. The analysis timestamp is
omitted (never read). -/
structure RouteAnalysisResult where
  route_id : String
  efficiency_score : ℚ
  coverage_score : ℚ
  accessibility_score : ℚ
  travel_time_estimate : ℤ
  passenger_demand_score : ℚ
  bottlenecks : List Bottleneck
  recommendations : List String
deriving DecidableEq, Repr

/-- `RouteAnalysisResult.get_overall_score`: fixed weighted combination
(efficiency 0.25, coverage 0.25, accessibility 0.20, demand 0.30). -/
def RouteAnalysisResult.get_overall_score (r : RouteAnalysisResult) : ℚ :=
  r.efficiency_score * (25/100) + r.coverage_score * (25/100) +
    r.accessibility_score * (20/100) + r.passenger_demand_score * (30/100)

/-- `_rule_based_efficiency_score` applied to the extracted feature vector:
base 50, stop-count band bonuses, spacing bonuses/penalties, time-per-stop
bonuses/penalties, linear accessibility bonus, clamped to [0, 100]. -/
def rule_based_efficiency_score (stopCount avgDistance timePerStop accessibilityRatio : ℚ) : ℚ :=
  let score : ℚ := 50
  let score := if 8 ≤ stopCount ∧ stopCount ≤ 12 then score + 15
    else if 5 ≤ stopCount ∧ stopCount ≤ 15 then score + 10
    else score - 10
  let score := if 1/2 ≤ avgDistance ∧ avgDistance ≤ 2 then score + 10
    else if 5 < avgDistance then score - 15
    else score
  let score := if timePerStop ≤ 5 then score + 10
    else if 10 < timePerStop then score - 10
    else score
  let score := score + accessibilityRatio * 15
  max 0 (min 100 score)

/-- `_calculate_efficiency_score`: the underlying predictor is either the
untrained sigmoid network (output scaled to [0, 100]) or the rule-based
fallback, and any scoring failure degrades to 50; all paths end in the same
clamp, so the predictor output is abstracted as the parameter
`predictorScore`. -/
def calculate_efficiency_score (predictorScore : ℚ) : ℚ :=
  max 0 (min 100 predictorScore)

/-- Sum of consecutive-stop distances of a stop list (the shared
`for i in range(len(stops) - 1)` accumulation). -/
def totalStopDistance (dist : Coordinates → Coordinates → ℚ) : List BusStop → ℚ
  | a :: b :: rest => dist a.coordinates b.coordinates + totalStopDistance dist (b :: rest)
  | _ => 0

/-- `_basic_coverage_score`: geographic-spread proxy, floor 10, ceiling 100. -/
def basic_coverage_score (stops : List BusStop) : ℚ :=
  match stops with
  | [] => 0
  | s :: rest =>
    let lats := (s :: rest).map (fun x => x.coordinates.latitude)
    let lons := (s :: rest).map (fun x => x.coordinates.longitude)
    let latRange := lats.foldl max s.coordinates.latitude - lats.foldl min s.coordinates.latitude
    let lonRange := lons.foldl max s.coordinates.longitude - lons.foldl min s.coordinates.longitude
    let coverage := min 100 ((latRange + lonRange) * 1000)
    max 10 coverage

/-- `_calculate_coverage_score`: population-weighted coverage within the fixed
radius threshold 0.01 (the Python constant, compared against the km distance),
falling back to the basic score without density points, and 50 on zero total
population. The inner `for stop ... break` is an existence test. -/
def calculate_coverage_score (dist : Coordinates → Coordinates → ℚ) (stops : List BusStop)
    (populationData : Option PopulationDensityData) : ℚ :=
  match populationData with
  | none => basic_coverage_score stops
  | some pd =>
    if pd.density_points = [] then basic_coverage_score stops
    else
      let totalPopulation := (pd.density_points.map (fun p => p.population)).sum
      if totalPopulation = 0 then 50
      else
        let coverageRadius : ℚ := 1/100
        let coveredPopulation := pd.density_points.foldl
          (fun acc point =>
            if stops.any (fun stop => dist stop.coordinates point.coordinates ≤ coverageRadius)
            then acc + point.population else acc) (0 : ℕ)
        min 100 ((coveredPopulation : ℚ) / (totalPopulation : ℚ) * 100)

/-- `_calculate_accessibility_score` (route analyzer version): 80 % accessible
ratio plus up to 20 points of average amenity count. The Python guard
`if stop.amenities` before adding `len(stop.amenities)` is kept verbatim. -/
def analyzer_accessibility_score (stops : List BusStop) : ℚ :=
  match stops with
  | [] => 0
  | _ :: _ =>
    let accessibleCount := (stops.filter (fun s => s.is_accessible)).length
    let accessibilityRatio : ℚ := (accessibleCount : ℚ) / stops.length
    let amenityBonus := stops.foldl
      (fun acc s => if s.amenities ≠ [] then acc + s.amenities.length else acc) (0 : ℕ)
    let amenityScore := min 20 ((amenityBonus : ℚ) / stops.length)
    accessibilityRatio * 80 + amenityScore

/-- Truncation toward zero, Python's `int(...)` on a float. -/
def ratTrunc (q : ℚ) : ℤ :=
  if 0 ≤ q then ⌊q⌋ else -⌊-q⌋

/-- `_estimate_travel_time`: recompute from consecutive distances at 25 km/h
plus 2 minutes per stop, never below the route's stated time. -/
def estimate_travel_time (dist : Coordinates → Coordinates → ℚ) (route : Route) : ℤ :=
  if route.stops.length < 2 then route.estimated_travel_time
  else
    let totalDistance := totalStopDistance dist route.stops
    let travelTimeMinutes := ratTrunc (totalDistance / 25 * 60)
    let stopTime : ℤ := route.stops.length * 2
    max (travelTimeMinutes + stopTime) route.estimated_travel_time

/-- `_calculate_density_bonus`: per-stop nearby population (threshold 0.01),
up to 10 points per stop, averaged and capped at 20. -/
def calculate_density_bonus (dist : Coordinates → Coordinates → ℚ) (stops : List BusStop)
    (pd : PopulationDensityData) : ℚ :=
  let coverageRadius : ℚ := 1/100
  let bonus := stops.foldl
    (fun acc stop =>
      let nearbyPopulation := pd.density_points.foldl
        (fun n p => if dist stop.coordinates p.coordinates ≤ coverageRadius
                    then n + p.population else n) (0 : ℕ)
      acc + min 10 ((nearbyPopulation : ℚ) / 1000)) (0 : ℚ)
  min 20 (bonus / stops.length)

/-- `_calculate_passenger_demand_score`: average daily passengers against a
1000/day reference, capped at 100, boosted by the density bonus when data
with density points is available. -/
def calculate_passenger_demand_score (dist : Coordinates → Coordinates → ℚ)
    (stops : List BusStop) (populationData : Option PopulationDensityData) : ℚ :=
  if stops = [] then 0
  else
    let totalPassengers := (stops.map (fun s => s.daily_passenger_count)).sum
    let avgPassengers : ℚ := (totalPassengers : ℚ) / stops.length
    let baseScore := min 100 (avgPassengers / 1000 * 100)
    match populationData with
    | some pd =>
      if pd.density_points ≠ [] then min 100 (baseScore + calculate_density_bonus dist stops pd)
      else baseScore
    | none => baseScore

/-- `_identify_bottlenecks`: high-demand stops (over twice the average, `high`
severity over three times), large consecutive gaps (over 5 km, `high` over
10 km), and an aggregate accessibility flag when over half the stops are
inaccessible. Only the `type`/`severity` keys of each record are modelled. -/
def identify_bottlenecks (dist : Coordinates → Coordinates → ℚ) (stops : List BusStop) :
    List Bottleneck :=
  if stops.length < 2 then []
  else
    let avgPassengers : ℚ := ((stops.map (fun s => s.daily_passenger_count)).sum : ℚ) / stops.length
    let highThreshold := avgPassengers * 2
    let demandBottlenecks := stops.filterMap
      (fun s =>
        if highThreshold < (s.daily_passenger_count : ℚ) then
          some { btype := "high_demand_stop",
                 severity := if avgPassengers * 3 < (s.daily_passenger_count : ℚ)
                             then "high" else "medium" }
        else none)
    let gapBottlenecks := (stops.zip stops.tail).filterMap
      (fun sp =>
        let d := dist sp.1.coordinates sp.2.coordinates
        if 5 < d then
          some { btype := "large_gap", severity := if 10 < d then "high" else "medium" }
        else none)
    let inaccessibleCount := (stops.filter (fun s => !s.is_accessible)).length
    let accessibilityBottlenecks : List Bottleneck :=
      if (stops.length : ℚ) * (1/2) < (inaccessibleCount : ℚ) then
        [{ btype := "accessibility_issue", severity := "medium" }]
      else []
    demandBottlenecks ++ gapBottlenecks ++ accessibilityBottlenecks

/-- `_generate_recommendations`: threshold-driven advice strings with a
positive default when nothing triggers. -/
def generate_recommendations (route : Route)
    (efficiencyScore coverageScore accessibilityScore : ℚ) : List String :=
  let recommendations : List String := []
  let recommendations := if efficiencyScore < 60 then
      let recommendations := if 15 < route.stops.length then
          recommendations ++ ["Consider reducing the number of stops to improve efficiency"]
        else if route.stops.length < 5 then
          recommendations ++ ["Consider adding more stops to better serve the area"]
        else recommendations
      recommendations ++ ["Review stop spacing and timing to optimize travel efficiency"]
    else recommendations
  let recommendations := if coverageScore < 50 then
      recommendations ++
        ["Consider adjusting route path to cover higher population density areas",
         "Analyze population data to identify underserved areas"]
    else recommendations
  let recommendations := if accessibilityScore < 70 then
      recommendations ++
        ["Improve wheelchair accessibility at more stops",
         "Add amenities like shelters and seating at stops"]
    else recommendations
  let recommendations := if 120 < route.estimated_travel_time then
      recommendations ++ ["Consider splitting this route into shorter segments"]
    else recommendations
  let recommendations := if route.is_active = false then
      recommendations ++ ["Evaluate reactivating this route based on analysis results"]
    else recommendations
  if recommendations = [] then
    ["Route performance is good - consider minor optimizations for continuous improvement"]
  else recommendations

/-- `analyze_route`: assemble the five metrics, the bottleneck list and the
recommendations into a `RouteAnalysisResult`. `predictorScore` abstracts the
efficiency predictor output (see `calculate_efficiency_score`). -/
def analyze_route (dist : Coordinates → Coordinates → ℚ) (predictorScore : ℚ) (route : Route)
    (populationData : Option PopulationDensityData) : RouteAnalysisResult :=
  let efficiencyScore := calculate_efficiency_score predictorScore
  let coverageScore := calculate_coverage_score dist route.stops populationData
  let accessibilityScore := analyzer_accessibility_score route.stops
  { route_id := route.id,
    efficiency_score := efficiencyScore,
    coverage_score := coverageScore,
    accessibility_score := accessibilityScore,
    travel_time_estimate := estimate_travel_time dist route,
    passenger_demand_score := calculate_passenger_demand_score dist route.stops populationData,
    bottlenecks := identify_bottlenecks dist route.stops,
    recommendations := generate_recommendations route efficiencyScore coverageScore accessibilityScore }

/-! ## Population analyzer (`algorithms/population_analyzer.py`)

The claims under verification concern the candidate-stop placement and the
coverage-gap detection, so exactly that slice of `analyze_population_data`
is embedded (the density/demographic summaries do not feed into it). -/

/-- A coverage-gap record. The Python dict's `coordinates`, `population` and
`demographic_profile` keys are projections of the originating density point,
kept here whole; `distance_to_nearest_stop` and `severity` are computed. -/
structure CoverageGap where
  point : DensityPoint
  distance_to_nearest_stop : WithTop ℚ
  severity : String
deriving DecidableEq, Repr

/-- `_calculate_stop_score`: population of the point plus linearly decaying
contributions from every other point within 1 km. -/
def calculate_stop_score (dist : Coordinates → Coordinates → ℚ)
    (point : ℚ × ℚ × ℕ) (allPoints : List (ℚ × ℚ × ℕ)) : ℚ :=
  let lat := point.1
  let lon := point.2.1
  allPoints.foldl
    (fun score other =>
      if (other.1, other.2.1) ≠ (lat, lon) then
        let d := dist ⟨lat, lon⟩ ⟨other.1, other.2.1⟩
        if d ≤ 1 then score + (other.2.2 : ℚ) * max 0 (1 - d) else score
      else score)
    (point.2.2 : ℚ)

/-- Greedy selection loop of `_find_optimal_stop_locations`: pick the
highest-scoring remaining point (first maximum wins, as Python's `max` does),
then drop every remaining point within 0.5 km of it. The fuel is
`min(max_stops, len(points))`, matching the `for _ in range(...)` bound. -/
def greedyStopLoop (dist : Coordinates → Coordinates → ℚ) :
    ℕ → List (ℚ × ℚ × ℕ) → List Coordinates
  | 0, _ => []
  | _ + 1, [] => []
  | fuel + 1, r :: rs =>
    let bestPoint := (r :: rs).foldl
      (fun acc p => if calculate_stop_score dist acc (r :: rs) <
                       calculate_stop_score dist p (r :: rs) then p else acc) r
    let remaining := (r :: rs).filter
      (fun p => 1/2 < dist ⟨p.1, p.2.1⟩ ⟨bestPoint.1, bestPoint.2.1⟩)
    Coordinates.mk bestPoint.1 bestPoint.2.1 :: greedyStopLoop dist fuel remaining

/-- `_find_optimal_stop_locations` (target count 20): with at most 20 density
points every positive-population point is a candidate directly; otherwise the
greedy loop above. -/
def find_optimal_stop_locations (dist : Coordinates → Coordinates → ℚ)
    (populationData : PopulationDensityData) (maxStops : ℕ) : List Coordinates :=
  match populationData.density_points with
  | [] => []
  | _ :: _ =>
    let points := populationData.density_points.map
      (fun p => (p.coordinates.latitude, p.coordinates.longitude, p.population))
    if points.length ≤ maxStops then
      (points.filter (fun p => 0 < p.2.2)).map (fun p => Coordinates.mk p.1 p.2.1)
    else
      greedyStopLoop dist (min maxStops points.length) points

/-- The inner `for stop in optimal_stops ... break` of `_identify_coverage_gaps`:
covered as soon as one candidate is within the radius, tracking the running
minimum distance (started at `float('inf')`). -/
def coverScan (dist : Coordinates → Coordinates → ℚ) (c : Coordinates) (radius : ℚ) :
    List Coordinates → WithTop ℚ → Bool × WithTop ℚ
  | [], minDistance => (false, minDistance)
  | s :: rest, minDistance =>
    let d := dist c s
    let minDistance' := min minDistance (d : WithTop ℚ)
    if d ≤ radius then (true, minDistance') else coverScan dist c radius rest minDistance'

/-- `_identify_coverage_gaps` (radius 1 km): density points not covered by any
candidate stop and with population above 500 become gap records (severity
`high` above 2000), sorted descending by population (stable, as `list.sort`). -/
def identify_coverage_gaps (dist : Coordinates → Coordinates → ℚ)
    (populationData : PopulationDensityData) (optimalStops : List Coordinates)
    (coverageRadius : ℚ) : List CoverageGap :=
  if populationData.density_points = [] ∨ optimalStops = [] then []
  else
    let gaps := populationData.density_points.foldl
      (fun acc point =>
        let scan := coverScan dist point.coordinates coverageRadius optimalStops ⊤
        if scan.1 = false ∧ 500 < point.population then
          acc ++ [{ point := point,
                    distance_to_nearest_stop := scan.2,
                    severity := if 2000 < point.population then "high" else "medium" }]
        else acc)
      ([] : List CoverageGap)
    stableSort (fun a b => decide (b.point.population ≤ a.point.population)) gaps

/-- The coverage-gap field of `analyze_population_data`: gaps of the candidate
stops that `_find_optimal_stop_locations` itself produced (target 20,
radius 1 km). -/
def analyze_population_coverage_gaps (dist : Coordinates → Coordinates → ℚ)
    (populationData : PopulationDensityData) : List CoverageGap :=
  identify_coverage_gaps dist populationData
    (find_optimal_stop_locations dist populationData 20) 1

/-- `population_analyzer.py` `PopulationAnalysisResult`, restricted to the
fields consumed by the optimization engine and the claims (the density and
demographic summaries are independent of them). -/
structure PopulationAnalysisResult where
  region : String
  total_population : ℕ
  optimal_stop_locations : List Coordinates
  coverage_gaps : List CoverageGap
deriving DecidableEq, Repr

/-! ## Optimization engine (`algorithms/optimization_engine.py`) -/

/-- The dict comprehension `{stop.id: stop for stop in optimized_stops}`
followed by lookup: later bindings win, so the last stop with the id. -/
def stopDictFind (stops : List BusStop) (sid : String) : Option BusStop :=
  stops.reverse.find? (fun s => s.id = sid)

/-- One new stop of `_add_stops_for_coverage_gaps`; `idx` is `len(new_stops)`
at creation time and `freshId` is the pydantic UUID oracle. -/
def mkGapStop (freshId : ℕ → String) (idx : ℕ) (gap : CoverageGap) : BusStop :=
  { id := freshId idx,
    name := "New Stop - Gap Coverage " ++ toString (idx + 1),
    coordinates := gap.point.coordinates,
    address := "Coverage gap area - Population: " ++ toString gap.point.population,
    amenities := ["shelter"],
    daily_passenger_count := min (gap.point.population / 10) 5000,
    is_accessible := true }

/-- `_add_stops_for_coverage_gaps`: one new accessible stop per gap record
(the `current_stops` parameter of the Python method is never read). -/
def add_stops_for_coverage_gaps (freshId : ℕ → String) (coverageGaps : List CoverageGap) :
    List BusStop :=
  coverageGaps.enum.map (fun gi => mkGapStop freshId gi.1 gi.2)

/-- `_remove_bottleneck_stops`: short lists are returned as-is; otherwise the
category scan — every branch of which is an explicit `continue`, the
non-matching case falling through with no action — leaves `stops_to_remove`
empty, and the final comprehension keeps a stop when its index is not marked
or when removal would leave fewer than 2 stops. -/
def remove_bottleneck_stops (stops : List BusStop) (bottlenecks : List Bottleneck) :
    List BusStop :=
  if stops.length ≤ 3 then stops
  else
    let stopsToRemove := bottlenecks.foldl
      (fun (acc : List ℕ) b =>
        if b.btype = "large_gap" ∧ b.severity = "high" then acc
        else if b.btype = "high_demand_stop" ∧ b.severity = "high" then acc
        else if b.btype = "accessibility_issue" then acc
        else acc)
      []
    (stops.enum.filter
      (fun si => si.1 ∉ stopsToRemove ∨ stops.length - stopsToRemove.length < 2)).map
      (fun si => si.2)

/-- `_enhance_amenities`: append the basic and accessibility amenities that
are not already present, in the fixed order of the Python lists. -/
def enhance_amenities (currentAmenities : List String) : List String :=
  let enhanced := ["shelter", "seating", "lighting"].foldl
    (fun acc a => if a ∈ acc then acc else acc ++ [a]) currentAmenities
  ["wheelchair_accessible", "tactile_paving"].foldl
    (fun acc a => if a ∈ acc then acc else acc ++ [a]) enhanced

/-- `_improve_accessibility`: rebuild every stop accessible and with the
enhanced amenity set. -/
def improve_accessibility (stops : List BusStop) : List BusStop :=
  stops.map (fun s =>
    { id := s.id,
      name := s.name,
      coordinates := s.coordinates,
      address := s.address,
      amenities := enhance_amenities s.amenities,
      daily_passenger_count := s.daily_passenger_count,
      is_accessible := true })

/-- The per-pair accumulation of `_estimate_optimized_travel_time`: matrix
time when both ids are present, otherwise the haversine fallback at 25 km/h
plus 2 minutes. -/
def optimizedSegmentTimes (dist : Coordinates → Coordinates → ℚ) (m : PathMatrix) :
    List BusStop → ℚ
  | a :: b :: rest =>
    (if a.id ∈ m.stop_ids ∧ b.id ∈ m.stop_ids then
      m.time (m.stop_ids.indexOf a.id) (m.stop_ids.indexOf b.id)
    else
      dist a.coordinates b.coordinates / 25 * 60 + 2) + optimizedSegmentTimes dist m (b :: rest)
  | _ => 0

/-- `_estimate_optimized_travel_time`: 10-minute floor, otherwise the summed
segment times truncated to an int, still floored at 10. -/
def estimate_optimized_travel_time (dist : Coordinates → Coordinates → ℚ)
    (stops : List BusStop) (m : PathMatrix) : ℤ :=
  if stops.length < 2 then 10
  else max 10 (ratTrunc (optimizedSegmentTimes dist m stops))

/-- `_calculate_new_optimization_score`: base overall score plus the three
bonuses (bottlenecks capped at 10, recommendations capped at 15, 10 when the
original accessibility score is below 80), capped at 100, floored at the
original score plus 5. -/
def calculate_new_optimization_score (originalScore : ℚ)
    (routeAnalysis : RouteAnalysisResult) : ℚ :=
  let baseScore := routeAnalysis.get_overall_score
  let optimizationBonus : ℚ :=
    (if routeAnalysis.bottlenecks ≠ [] then
      min 10 ((routeAnalysis.bottlenecks.length : ℚ) * 2) else 0) +
    (if routeAnalysis.recommendations ≠ [] then
      min 15 ((routeAnalysis.recommendations.length : ℚ) * 3) else 0) +
    (if routeAnalysis.accessibility_score < 80 then 10 else 0)
  let newScore := min 100 (baseScore + optimizationBonus)
  max newScore (originalScore + 5)

/-- `_generate_optimized_route`: reorder (when more than 2 stops), append up
to 2 coverage-gap stops, run the bottleneck-removal step, normalize
accessibility, recompute travel time and score, and build the new `Route`.
`freshId`/`freshRouteId` are the pydantic UUID oracles, `today` the date
string interpolated into the description. -/
def generate_optimized_route (dist : Coordinates → Coordinates → ℚ)
    (freshId : ℕ → String) (freshRouteId : String) (today : String)
    (originalRoute : Route) (routeAnalysis : RouteAnalysisResult)
    (populationAnalysis : Option PopulationAnalysisResult)
    (pathMatrix : PathMatrix) : Route :=
  let optimizedStops := originalRoute.stops
  let optimizedStops :=
    if 2 < optimizedStops.length then
      let stopIds := optimizedStops.map (fun s => s.id)
      let optimalOrder := find_optimal_route_order pathMatrix stopIds
      optimalOrder.filterMap (fun sid => stopDictFind optimizedStops sid)
    else optimizedStops
  let optimizedStops :=
    match populationAnalysis with
    | some pa =>
      if pa.coverage_gaps ≠ [] then
        optimizedStops ++ add_stops_for_coverage_gaps freshId (pa.coverage_gaps.take 2)
      else optimizedStops
    | none => optimizedStops
  let optimizedStops :=
    if routeAnalysis.bottlenecks ≠ [] then
      remove_bottleneck_stops optimizedStops routeAnalysis.bottlenecks
    else optimizedStops
  let optimizedStops := improve_accessibility optimizedStops
  { id := freshRouteId,
    name := originalRoute.name ++ " (Optimized)",
    description := "Optimized version of " ++ originalRoute.name ++ " - " ++ today,
    stops := optimizedStops,
    operator_id := originalRoute.operator_id,
    is_active := true,
    optimization_score := calculate_new_optimization_score
      originalRoute.optimization_score routeAnalysis,
    estimated_travel_time := estimate_optimized_travel_time dist optimizedStops pathMatrix }

/-! ## Concrete sample inputs

Closed values used to evaluate the definitions on explicit inputs. `distZero`
stands in for the haversine function at inputs where only the distance of a
point to itself is ever evaluated (haversine of two equal coordinates is 0). -/

/-- A distance oracle that is identically zero. -/
def distZero : Coordinates → Coordinates → ℚ := fun _ _ => 0

/-- Sample inaccessible stop with no amenities. -/
def exStopA : BusStop :=
  { id := "stop-a", name := "A", coordinates := ⟨0, 0⟩, address := "1 First St",
    amenities := [], daily_passenger_count := 0, is_accessible := false }

/-- Second sample stop. -/
def exStopB : BusStop :=
  { id := "stop-b", name := "B", coordinates := ⟨0, 1⟩, address := "2 Second St",
    amenities := [], daily_passenger_count := 0, is_accessible := false }

/-- Sample route named X over the two sample stops. -/
def exRouteX : Route :=
  { id := "route-1", name := "X", description := "", stops := [exStopA, exStopB],
    operator_id := "op", is_active := true, optimization_score := 0,
    estimated_travel_time := 30 }

/-- A route identical to `exRouteX` except for its name. -/
def exRouteY : Route :=
  { id := "route-1", name := "Y", description := "", stops := [exStopA, exStopB],
    operator_id := "op", is_active := true, optimization_score := 0,
    estimated_travel_time := 30 }

/-- All-zero optimization metrics. -/
def exMetrics0 : OptimizationMetrics :=
  { time_improvement := 0, distance_reduction := 0,
    passenger_coverage_increase := 0, cost_savings := 0 }

/-- Metrics with a 40 % time improvement and nothing else. -/
def exMetricsTime : OptimizationMetrics :=
  { time_improvement := 40, distance_reduction := 0,
    passenger_coverage_increase := 0, cost_savings := 0 }

/-- Sample population dataset with no density points. -/
def exPop : PopulationDensityData :=
  { region := "region", coordinates := { north := 1, south := 0, east := 1, west := 0 },
    density_points := [] }

/-- Optimization result wrapping route X. -/
def exResultX : OptimizationResult :=
  { original_route_id := "route-1", optimized_route := exRouteX,
    metrics := exMetrics0, population_data := exPop }

/-- Optimization result wrapping route Y: same route id and same metrics as
`exResultX` (hence the same ranking score under every criterion that only
reads the metrics), but a different value. -/
def exResultY : OptimizationResult :=
  { original_route_id := "route-1", optimized_route := exRouteY,
    metrics := exMetrics0, population_data := exPop }

/-- Optimization result with a distinct route id `route-2`. -/
def exResultB : OptimizationResult :=
  { original_route_id := "route-2", optimized_route := exRouteX,
    metrics := exMetricsTime, population_data := exPop }

/-- Optimization result with the time-only metrics. -/
def exResultTime : OptimizationResult :=
  { original_route_id := "route-1", optimized_route := exRouteX,
    metrics := exMetricsTime, population_data := exPop }

/-- A weight dict supplying only the time criterion. -/
def exWeightTime : WeightDict :=
  { time_improvement := some 1, distance_reduction := none, passenger_coverage := none,
    cost_savings := none, accessibility := none, environmental := none }

/-- A 3-stop path matrix for the sequencing examples. -/
def exMatrixABC : PathMatrix :=
  { stop_ids := ["a", "b", "c"],
    distance := fun i j => if i = j then 0 else ((i + j : ℕ) : ℚ),
    time := fun _ _ => 0 }

/-- A 2-stop matrix with an all-zero distance matrix: zero entries are
non-edges for Dijkstra, so `b` is unreachable from `a`. -/
def exMatrixAB : PathMatrix :=
  { stop_ids := ["a", "b"], distance := fun _ _ => 0, time := fun _ _ => 0 }

/-- A matrix aligned with the stops of `exRouteX`. -/
def exMatrixRoute : PathMatrix :=
  { stop_ids := ["stop-a", "stop-b"], distance := fun _ _ => 0, time := fun _ _ => 0 }

/-- A sample route-analysis result. -/
def exAnalysis : RouteAnalysisResult :=
  { route_id := "route-1", efficiency_score := 50, coverage_score := 50,
    accessibility_score := 50, travel_time_estimate := 30,
    passenger_demand_score := 50, bottlenecks := [],
    recommendations := ["Review stop spacing and timing to optimize travel efficiency"] }

/-- The single density point of the claim C5 scenario: population 10000,
inside the bounding box, with no demographic detail. -/
def exGapData : PopulationDensityData :=
  { region := "region", coordinates := { north := 1, south := 0, east := 1, west := 0 },
    density_points := [{ coordinates := ⟨1/2, 1/2⟩, population := 10000,
                         demographic_data := { age_groups := [], economic_indicators := [] } }] }

/-! ## Proofs -/

/-- The category scan of `_remove_bottleneck_stops` marks nothing: every branch
is a `continue` and the fall-through case appends nothing. -/
lemma stops_to_remove_nil (bottlenecks : List Bottleneck) :
    bottlenecks.foldl
      (fun (acc : List ℕ) b =>
        if b.btype = "large_gap" ∧ b.severity = "high" then acc
        else if b.btype = "high_demand_stop" ∧ b.severity = "high" then acc
        else if b.btype = "accessibility_issue" then acc
        else acc)
      [] = [] := by
  induction bottlenecks with
  | nil => rfl
  | cons b bs ih =>
    rw [List.foldl_cons]
    split_ifs <;> exact ih

/-- `_remove_bottleneck_stops` is the identity on the stop list. -/
lemma remove_bottleneck_stops_eq (stops : List BusStop) (bottlenecks : List Bottleneck) :
    remove_bottleneck_stops stops bottlenecks = stops := by
  rw [remove_bottleneck_stops]
  split
  · rfl
  · simp [stops_to_remove_nil, List.enum_map_snd]

/-- Claim C8: for every stop list and every list of bottleneck records, the
bottleneck-removal step returns a stop list element-for-element equal to its
input — every bottleneck category is excluded from removal, so the step is
the identity on the evolving stop list. -/
theorem bottleneck_removal_is_identity (stops : List BusStop)
    (bottlenecks : List Bottleneck) :
    remove_bottleneck_stops stops bottlenecks = stops :=
  remove_bottleneck_stops_eq stops bottlenecks

/-- Claim C10: the route built by `_generate_optimized_route` has
`is_active = True` for every input, regardless of the original route's
active flag — optimization silently reactivates inactive routes. -/
theorem optimized_route_is_always_active (dist : Coordinates → Coordinates → ℚ)
    (freshId : ℕ → String) (freshRouteId today : String) (originalRoute : Route)
    (routeAnalysis : RouteAnalysisResult)
    (populationAnalysis : Option PopulationAnalysisResult) (pathMatrix : PathMatrix) :
    (generate_optimized_route dist freshId freshRouteId today originalRoute
      routeAnalysis populationAnalysis pathMatrix).is_active = true :=
  rfl

/-- Claim C4: the optimization score assigned by `_generate_optimized_route`
equals the analysis overall score plus the three bonuses (at most 10 for the
bottleneck count, at most 15 for the recommendation count, exactly 10 when
the original accessibility score is below 80), capped at 100 and floored at
the original route's optimization score plus 5; in particular it is at least
the original score plus 5. -/
theorem optimization_score_characterization (dist : Coordinates → Coordinates → ℚ)
    (freshId : ℕ → String) (freshRouteId today : String) (originalRoute : Route)
    (routeAnalysis : RouteAnalysisResult)
    (populationAnalysis : Option PopulationAnalysisResult) (pathMatrix : PathMatrix) :
    (generate_optimized_route dist freshId freshRouteId today originalRoute
        routeAnalysis populationAnalysis pathMatrix).optimization_score =
      max (min 100 (routeAnalysis.get_overall_score +
        ((if routeAnalysis.bottlenecks ≠ [] then
            min 10 ((routeAnalysis.bottlenecks.length : ℚ) * 2) else 0) +
         (if routeAnalysis.recommendations ≠ [] then
            min 15 ((routeAnalysis.recommendations.length : ℚ) * 3) else 0) +
         (if routeAnalysis.accessibility_score < 80 then 10 else 0))))
        (originalRoute.optimization_score + 5) ∧
    (0 ≤ (if routeAnalysis.bottlenecks ≠ [] then
            min 10 ((routeAnalysis.bottlenecks.length : ℚ) * 2) else 0) ∧
     (if routeAnalysis.bottlenecks ≠ [] then
        min 10 ((routeAnalysis.bottlenecks.length : ℚ) * 2) else 0) ≤ 10) ∧
    (0 ≤ (if routeAnalysis.recommendations ≠ [] then
            min 15 ((routeAnalysis.recommendations.length : ℚ) * 3) else 0) ∧
     (if routeAnalysis.recommendations ≠ [] then
        min 15 ((routeAnalysis.recommendations.length : ℚ) * 3) else 0) ≤ 15) ∧
    originalRoute.optimization_score + 5 ≤
      (generate_optimized_route dist freshId freshRouteId today originalRoute
        routeAnalysis populationAnalysis pathMatrix).optimization_score := by
  refine ⟨rfl, ⟨?_, ?_⟩, ⟨?_, ?_⟩, ?_⟩
  · split
    · exact le_min (by norm_num) (by positivity)
    · exact le_refl 0
  · split
    · exact min_le_left _ _
    · norm_num
  · split
    · exact le_min (by norm_num) (by positivity)
    · exact le_refl 0
  · split
    · exact min_le_left _ _
    · norm_num
  · exact le_max_right _ _

/-- Mapping a division over an optional weight commutes with `weightTerm`. -/
lemma weightTerm_map_div (v t : ℚ) (o : Option ℚ) :
    weightTerm v (o.map (fun x => x / t)) = weightTerm v o / t := by
  cases o <;> simp [weightTerm, mul_div_assoc]

/-- `weightTerm` in closed form. -/
lemma weightTerm_getD (v : ℚ) (o : Option ℚ) : weightTerm v o = v * o.getD 0 := by
  cases o <;> simp [weightTerm]

/-- `getD 0` after dividing an optional weight. -/
lemma getD_map_div (o : Option ℚ) (t : ℚ) :
    (o.map (fun x => x / t)).getD 0 = o.getD 0 / t := by
  cases o <;> simp [zero_div]

/-- Renormalization really makes the supplied weights sum to 1. -/
lemma normalize_total_eq_one (w : WeightDict) (h : 0 < w.total) :
    w.normalize.total = 1 := by
  have ht : w.total ≠ 0 := ne_of_gt h
  rw [WeightDict.normalize, if_pos h]
  show (w.time_improvement.map (· / w.total)).getD 0 +
      (w.distance_reduction.map (· / w.total)).getD 0 +
      (w.passenger_coverage.map (· / w.total)).getD 0 +
      (w.cost_savings.map (· / w.total)).getD 0 +
      (w.accessibility.map (· / w.total)).getD 0 +
      (w.environmental.map (· / w.total)).getD 0 = 1
  simp only [getD_map_div]
  rw [div_add_div_same, div_add_div_same, div_add_div_same, div_add_div_same,
    div_add_div_same]
  exact div_self ht

/-- Claim C9 (counterexample): with a caller-supplied weight map that names
only the time criterion, the code's composite score differs from the
spec-modelled score that fills the five missing criteria from the default
table before renormalizing — missing criteria are not defaulted. -/
theorem weighted_score_no_default_fill_counterexample :
    calculate_weighted_overall_score exResultTime (some exWeightTime) ≠
      weighted_overall_score_spec exResultTime exWeightTime := by
  have h1 : calculate_weighted_overall_score exResultTime (some exWeightTime) = 40 := by
    norm_num [calculate_weighted_overall_score, weightedScoreSum, WeightDict.normalize,
      WeightDict.total, weightTerm, exResultTime, exWeightTime, exMetricsTime]
  have h2 : weighted_overall_score_spec exResultTime exWeightTime = 160 / 7 := by
    norm_num [weighted_overall_score_spec, weightedScoreSum, WeightDict.normalize,
      WeightDict.total, weightTerm, exResultTime, exWeightTime, exMetricsTime,
      calculate_accessibility_score, calculate_environmental_score, exRouteX, exStopA,
      exStopB]
  rw [h1, h2]
  norm_num

/-- Claim C9 (amended): only when no weight map is supplied does the default
table apply; a supplied map is used as-is — renormalized to sum to 1
(`normalize_total_eq_one`), with criteria absent from the map contributing
zero rather than their default weight. -/
theorem weighted_score_uses_supplied_weights_only (result : OptimizationResult)
    (w : WeightDict) (h : 0 < w.total) :
    w.normalize.total = 1 ∧
    calculate_weighted_overall_score result (some w) =
      min ((result.metrics.time_improvement * w.time_improvement.getD 0 +
            result.metrics.distance_reduction * w.distance_reduction.getD 0 +
            result.metrics.passenger_coverage_increase * w.passenger_coverage.getD 0 +
            result.metrics.cost_savings * w.cost_savings.getD 0 +
            calculate_accessibility_score result.optimized_route * w.accessibility.getD 0 +
            calculate_environmental_score result * w.environmental.getD 0) / w.total) 100 := by
  have ht : w.total ≠ 0 := ne_of_gt h
  refine ⟨normalize_total_eq_one w h, ?_⟩
  rw [calculate_weighted_overall_score]
  congr 1
  rw [weightedScoreSum, WeightDict.normalize, if_pos h]
  show 0 + weightTerm result.metrics.time_improvement (w.time_improvement.map (· / w.total)) +
      weightTerm result.metrics.distance_reduction (w.distance_reduction.map (· / w.total)) +
      weightTerm result.metrics.passenger_coverage_increase
        (w.passenger_coverage.map (· / w.total)) +
      weightTerm result.metrics.cost_savings (w.cost_savings.map (· / w.total)) +
      weightTerm (calculate_accessibility_score result.optimized_route)
        (w.accessibility.map (· / w.total)) +
      weightTerm (calculate_environmental_score result)
        (w.environmental.map (· / w.total)) = _
  simp only [weightTerm_map_div]
  rw [zero_add, div_add_div_same, div_add_div_same, div_add_div_same, div_add_div_same,
    div_add_div_same]
  simp only [weightTerm_getD]

/-- Witness for the amended claim C9 at the concrete time-only weight map. -/
theorem weighted_score_uses_supplied_weights_only_witness :
    0 < exWeightTime.total ∧
    (exWeightTime.normalize.total = 1 ∧
     calculate_weighted_overall_score exResultTime (some exWeightTime) =
       min ((exResultTime.metrics.time_improvement * exWeightTime.time_improvement.getD 0 +
             exResultTime.metrics.distance_reduction * exWeightTime.distance_reduction.getD 0 +
             exResultTime.metrics.passenger_coverage_increase *
               exWeightTime.passenger_coverage.getD 0 +
             exResultTime.metrics.cost_savings * exWeightTime.cost_savings.getD 0 +
             calculate_accessibility_score exResultTime.optimized_route *
               exWeightTime.accessibility.getD 0 +
             calculate_environmental_score exResultTime * exWeightTime.environmental.getD 0) /
            exWeightTime.total) 100) :=
  ⟨by norm_num [exWeightTime, WeightDict.total],
   weighted_score_uses_supplied_weights_only exResultTime exWeightTime
     (by norm_num [exWeightTime, WeightDict.total])⟩

/-- With a single positive-population density point, the analysis places a
candidate stop at that very point, which therefore covers itself (haversine of
a point to itself is 0 ≤ radius), so no coverage gap is reported. -/
lemma single_point_dataset_no_gaps (dist : Coordinates → Coordinates → ℚ)
    (region : String) (bounds : GeoBounds) (c : Coordinates) (dd : DemographicData)
    (pop : ℕ) (hpop : 0 < pop) (hc : dist c c ≤ 1) :
    analyze_population_coverage_gaps dist
      { region := region, coordinates := bounds,
        density_points := [{ coordinates := c, population := pop,
                             demographic_data := dd }] } = [] := by
  rw [analyze_population_coverage_gaps]
  have hstops : find_optimal_stop_locations dist
      { region := region, coordinates := bounds,
        density_points := [{ coordinates := c, population := pop,
                             demographic_data := dd }] } 20 = [c] := by
    rw [find_optimal_stop_locations]
    simp [hpop]
  rw [hstops, identify_coverage_gaps]
  simp [coverScan, hc, stableSort]

/-- Claim C5 (counterexample): the scenario's dataset — a single density point
of population 10,000 inside the bounds — yields zero coverage-gap entries,
not one: the analysis derives its candidate stops from the density points
themselves, so the lone point is covered by its own candidate stop. The only
distance the run evaluates is from the point to itself, where the haversine
function returns 0, so the zero oracle `distZero` agrees with it. -/
theorem scenario4_single_gap_counterexample :
    (analyze_population_coverage_gaps distZero exGapData).length ≠ 1 := by
  have h : analyze_population_coverage_gaps distZero exGapData = [] :=
    single_point_dataset_no_gaps distZero "region"
      { north := 1, south := 0, east := 1, west := 0 } ⟨1/2, 1/2⟩
      { age_groups := [], economic_indicators := [] } 10000 (by norm_num)
      (by norm_num [distZero])
  rw [h]
  decide

/-- Claim C5 (amended): a population dataset with a single density point of
population 10,000 yields exactly zero coverage-gap entries — the candidate
stops are placed at the density points themselves, so the lone point is
always within the 1 km radius of its own candidate stop (the haversine
distance of a point to itself being 0). -/
theorem scenario4_single_point_no_gaps (dist : Coordinates → Coordinates → ℚ)
    (region : String) (bounds : GeoBounds) (c : Coordinates) (dd : DemographicData)
    (hc : dist c c ≤ 1) :
    analyze_population_coverage_gaps dist
      { region := region, coordinates := bounds,
        density_points := [{ coordinates := c, population := 10000,
                             demographic_data := dd }] } = [] :=
  single_point_dataset_no_gaps dist region bounds c dd 10000 (by norm_num) hc

/-- Witness for the amended claim C5 at the concrete scenario dataset. -/
theorem scenario4_single_point_no_gaps_witness :
    distZero ⟨1/2, 1/2⟩ ⟨1/2, 1/2⟩ ≤ 1 ∧
    analyze_population_coverage_gaps distZero
      { region := "region",
        coordinates := { north := 1, south := 0, east := 1, west := 0 },
        density_points := [{ coordinates := ⟨1/2, 1/2⟩, population := 10000,
                             demographic_data := { age_groups := [],
                                                   economic_indicators := [] } }] } = [] :=
  ⟨by norm_num [distZero],
   scenario4_single_point_no_gaps distZero "region"
     { north := 1, south := 0, east := 1, west := 0 } ⟨1/2, 1/2⟩
     { age_groups := [], economic_indicators := [] } (by norm_num [distZero])⟩

/-- A fold whose step preserves non-negativity yields a non-negative value. -/
lemma foldl_nonneg {α : Type} (f : ℚ → α → ℚ) (hf : ∀ a x, 0 ≤ a → 0 ≤ f a x) :
    ∀ (l : List α) (a : ℚ), 0 ≤ a → 0 ≤ l.foldl f a := by
  intro l
  induction l with
  | nil => intro a h; simpa using h
  | cons x xs ih => intro a h; rw [List.foldl_cons]; exact ih _ (hf a x h)

/-- The efficiency score is clamped into [0, 100] for every predictor output. -/
lemma efficiency_score_bounds (predictorScore : ℚ) :
    0 ≤ calculate_efficiency_score predictorScore ∧
      calculate_efficiency_score predictorScore ≤ 100 := by
  constructor
  · exact le_max_left 0 _
  · rw [calculate_efficiency_score]
    rcases le_total 0 (min 100 predictorScore) with h | h
    · rw [max_eq_right h]; exact min_le_left _ _
    · rw [max_eq_left h]; norm_num

/-- The geographic-spread fallback coverage score lies in [10, 100] ⊆ [0, 100]. -/
lemma basic_coverage_score_bounds (stops : List BusStop) (hs : stops ≠ []) :
    0 ≤ basic_coverage_score stops ∧ basic_coverage_score stops ≤ 100 := by
  match stops, hs with
  | s :: rest, _ =>
    rw [basic_coverage_score]
    constructor
    · exact le_trans (by norm_num) (le_max_left 10 _)
    · exact max_le (by norm_num) (min_le_left _ _)

/-- The coverage score lies in [0, 100] for every non-empty stop list. -/
lemma coverage_score_bounds (dist : Coordinates → Coordinates → ℚ) (stops : List BusStop)
    (populationData : Option PopulationDensityData) (hs : stops ≠ []) :
    0 ≤ calculate_coverage_score dist stops populationData ∧
      calculate_coverage_score dist stops populationData ≤ 100 := by
  match populationData with
  | none =>
    rw [calculate_coverage_score]
    exact basic_coverage_score_bounds stops hs
  | some pd =>
    rw [calculate_coverage_score]
    by_cases hpd : pd.density_points = []
    · rw [if_pos hpd]
      exact basic_coverage_score_bounds stops hs
    · rw [if_neg hpd]
      by_cases htot : (pd.density_points.map (fun p => p.population)).sum = 0
      · norm_num [htot]
      · rw [if_neg htot]
        constructor
        · apply le_min (by norm_num)
          positivity
        · exact min_le_left _ _

/-- The analyzer accessibility score lies in [0, 100] for non-empty stop lists. -/
lemma analyzer_accessibility_score_bounds (stops : List BusStop) (hs : stops ≠ []) :
    0 ≤ analyzer_accessibility_score stops ∧ analyzer_accessibility_score stops ≤ 100 := by
  match stops, hs with
  | s :: rest, _ =>
    rw [analyzer_accessibility_score]
    have hlen : (0 : ℚ) < ((s :: rest).length : ℚ) := by
      exact_mod_cast Nat.pos_of_ne_zero (by simp)
    have hcount : (((s :: rest).filter (fun x => x.is_accessible)).length : ℚ) ≤
        ((s :: rest).length : ℚ) := by
      exact_mod_cast List.length_filter_le _ _
    have hratio0 : (0 : ℚ) ≤
        (((s :: rest).filter (fun x => x.is_accessible)).length : ℚ) /
          ((s :: rest).length : ℚ) := by positivity
    have hratio1 : (((s :: rest).filter (fun x => x.is_accessible)).length : ℚ) /
        ((s :: rest).length : ℚ) ≤ 1 := by
      rw [div_le_one hlen]; exact hcount
    have hamen0 : (0 : ℚ) ≤
        ((((s :: rest).foldl
          (fun acc x => if x.amenities ≠ [] then acc + x.amenities.length else acc)
          (0 : ℕ)) : ℕ) : ℚ) / ((s :: rest).length : ℚ) := by positivity
    constructor
    · have := min_le_left (20 : ℚ)
      nlinarith [le_min (by norm_num : (0:ℚ) ≤ 20) hamen0]
    · nlinarith [min_le_left (20 : ℚ)
        (((((s :: rest).foldl
          (fun acc x => if x.amenities ≠ [] then acc + x.amenities.length else acc)
          (0 : ℕ)) : ℕ) : ℚ) / ((s :: rest).length : ℚ))]

/-- The passenger demand score lies in [0, 100] for non-empty stop lists. -/
lemma demand_score_bounds (dist : Coordinates → Coordinates → ℚ) (stops : List BusStop)
    (populationData : Option PopulationDensityData) (hs : stops ≠ []) :
    0 ≤ calculate_passenger_demand_score dist stops populationData ∧
      calculate_passenger_demand_score dist stops populationData ≤ 100 := by
  rw [calculate_passenger_demand_score, if_neg hs]
  dsimp only
  have hsum : (0 : ℚ) ≤ (List.map (fun s => (s.daily_passenger_count : ℚ)) stops).sum := by
    apply List.sum_nonneg
    intro x hx
    rcases List.mem_map.mp hx with ⟨s, _, rfl⟩
    positivity
  have hbase0 : (0 : ℚ) ≤ 100 ⊓
      ((List.map (fun s => (s.daily_passenger_count : ℚ)) stops).sum /
        (stops.length : ℚ) / 1000 * 100) := by
    apply le_min (by norm_num)
    exact mul_nonneg (div_nonneg (div_nonneg hsum (by positivity)) (by norm_num)) (by norm_num)
  have hbase1 : (100 : ℚ) ⊓
      ((List.map (fun s => (s.daily_passenger_count : ℚ)) stops).sum /
        (stops.length : ℚ) / 1000 * 100) ≤ 100 := min_le_left _ _
  match populationData with
  | none => exact ⟨hbase0, hbase1⟩
  | some pd =>
    dsimp only
    by_cases hpd : pd.density_points ≠ []
    · rw [if_pos hpd]
      have hbonus : (0 : ℚ) ≤ calculate_density_bonus dist stops pd := by
        rw [calculate_density_bonus]
        apply le_min (by norm_num)
        apply div_nonneg _ (by positivity)
        apply foldl_nonneg
        · intro a x ha
          dsimp only
          apply add_nonneg ha
          apply le_min (by norm_num)
          exact div_nonneg (Nat.cast_nonneg _) (by norm_num)
        · norm_num
      exact ⟨le_min (by norm_num) (by linarith), min_le_left _ _⟩
    · rw [if_neg hpd]
      exact ⟨hbase0, hbase1⟩

/-- Claim C6: for every valid route (at least 2 stops), with or without
population data, the efficiency, coverage, accessibility and demand scores of
`analyze_route` each lie in [0, 100], and so does the overall score, the
fixed 0.25/0.25/0.20/0.30 weighted combination of them. -/
theorem analysis_scores_within_bounds (dist : Coordinates → Coordinates → ℚ)
    (predictorScore : ℚ) (route : Route)
    (populationData : Option PopulationDensityData) (h2 : 2 ≤ route.stops.length) :
    (0 ≤ (analyze_route dist predictorScore route populationData).efficiency_score ∧
      (analyze_route dist predictorScore route populationData).efficiency_score ≤ 100) ∧
    (0 ≤ (analyze_route dist predictorScore route populationData).coverage_score ∧
      (analyze_route dist predictorScore route populationData).coverage_score ≤ 100) ∧
    (0 ≤ (analyze_route dist predictorScore route populationData).accessibility_score ∧
      (analyze_route dist predictorScore route populationData).accessibility_score ≤ 100) ∧
    (0 ≤ (analyze_route dist predictorScore route populationData).passenger_demand_score ∧
      (analyze_route dist predictorScore route populationData).passenger_demand_score ≤ 100) ∧
    (0 ≤ (analyze_route dist predictorScore route populationData).get_overall_score ∧
      (analyze_route dist predictorScore route populationData).get_overall_score ≤ 100) := by
  have hs : route.stops ≠ [] := by
    intro hnil
    rw [hnil] at h2
    simp at h2
  have he := efficiency_score_bounds predictorScore
  have hc := coverage_score_bounds dist route.stops populationData hs
  have ha := analyzer_accessibility_score_bounds route.stops hs
  have hd := demand_score_bounds dist route.stops populationData hs
  refine ⟨he, hc, ha, hd, ?_, ?_⟩
  · rw [RouteAnalysisResult.get_overall_score]
    show 0 ≤ calculate_efficiency_score predictorScore * (25/100) +
      calculate_coverage_score dist route.stops populationData * (25/100) +
      analyzer_accessibility_score route.stops * (20/100) +
      calculate_passenger_demand_score dist route.stops populationData * (30/100)
    nlinarith [he.1, hc.1, ha.1, hd.1]
  · rw [RouteAnalysisResult.get_overall_score]
    show calculate_efficiency_score predictorScore * (25/100) +
      calculate_coverage_score dist route.stops populationData * (25/100) +
      analyzer_accessibility_score route.stops * (20/100) +
      calculate_passenger_demand_score dist route.stops populationData * (30/100) ≤ 100
    nlinarith [he.2, hc.2, ha.2, hd.2]

/-- Witness for claim C6 at a concrete 2-stop route. -/
theorem analysis_scores_within_bounds_witness :
    2 ≤ exRouteX.stops.length ∧
    (0 ≤ (analyze_route distZero 50 exRouteX none).efficiency_score ∧
      (analyze_route distZero 50 exRouteX none).efficiency_score ≤ 100) ∧
    (0 ≤ (analyze_route distZero 50 exRouteX none).coverage_score ∧
      (analyze_route distZero 50 exRouteX none).coverage_score ≤ 100) ∧
    (0 ≤ (analyze_route distZero 50 exRouteX none).accessibility_score ∧
      (analyze_route distZero 50 exRouteX none).accessibility_score ≤ 100) ∧
    (0 ≤ (analyze_route distZero 50 exRouteX none).passenger_demand_score ∧
      (analyze_route distZero 50 exRouteX none).passenger_demand_score ≤ 100) ∧
    (0 ≤ (analyze_route distZero 50 exRouteX none).get_overall_score ∧
      (analyze_route distZero 50 exRouteX none).get_overall_score ≤ 100) :=
  ⟨by norm_num [exRouteX],
   analysis_scores_within_bounds distZero 50 exRouteX none (by norm_num [exRouteX])⟩

/-- When a requested stop id is absent from the matrix, the filtered index
list is strictly shorter than the request, so both TSP routines fall back to
the input order. -/
lemma find_optimal_route_order_absent (m : PathMatrix) (stopIds : List String)
    (h : ∃ s ∈ stopIds, s ∉ m.stop_ids) :
    find_optimal_route_order m stopIds = stopIds := by
  obtain ⟨s, hmem, habs⟩ := h
  rcases stopIds with _ | ⟨x, xs⟩
  · simp at hmem
  · have hlt : (((x :: xs).filter (fun s => m.stop_ids.contains s)).map
        (fun s => m.stop_ids.indexOf s)).length ≠ (x :: xs).length := by
      rw [List.length_map]
      exact ne_of_lt (List.length_filter_lt_length_iff_exists.mpr
        ⟨s, hmem, by simpa using habs⟩)
    rw [find_optimal_route_order]
    by_cases h2 : (x :: xs).length ≤ 2
    · rw [if_pos h2]
    · rw [if_neg h2]
      by_cases h8 : (x :: xs).length ≤ 8
      · rw [if_pos h8, brute_force_tsp, if_pos hlt]
      · rw [if_neg h8, nearest_neighbor_tsp, if_pos hlt]

/-- Claim C7: the two LookupMiss fallbacks. (1) `find_optimal_route_order`
returns the input order unchanged when any requested id is absent from the
matrix; (2) `find_shortest_path` returns the no-path value `none` when either
endpoint id is absent; (3) `find_shortest_path` returns `none` when the
destination's distance is still infinite after the Dijkstra loop (the
destination is unreachable). -/
theorem lookup_miss_fallbacks (m : PathMatrix) (stopIds : List String)
    (originId destinationId : String) :
    ((∃ s ∈ stopIds, s ∉ m.stop_ids) → find_optimal_route_order m stopIds = stopIds) ∧
    ((originId ∉ m.stop_ids ∨ destinationId ∉ m.stop_ids) →
      find_shortest_path m originId destinationId = none) ∧
    ((dijkstraRun m originId).dist (m.stop_ids.indexOf destinationId) = ⊤ →
      find_shortest_path m originId destinationId = none) := by
  refine ⟨find_optimal_route_order_absent m stopIds, ?_, ?_⟩
  · intro habs
    rw [find_shortest_path, if_neg]
    intro ⟨h1, h2⟩
    rcases habs with h | h
    · exact h h1
    · exact h h2
  · intro hinf
    rw [find_shortest_path]
    by_cases hmem : originId ∈ m.stop_ids ∧ destinationId ∈ m.stop_ids
    · rw [if_pos hmem]
      dsimp only
      rw [if_pos hinf]
    · rw [if_neg hmem]

/-- Witness for claim C7: a request with the foreign id `x` comes back
unchanged, and both `none` branches of `find_shortest_path` fire on the
2-stop all-zero matrix (a zero matrix entry is a non-edge, so `b` is
unreachable from `a`). -/
theorem lookup_miss_fallbacks_witness :
    (∃ s ∈ ["a", "b", "c", "x"], s ∉ exMatrixABC.stop_ids) ∧
    find_optimal_route_order exMatrixABC ["a", "b", "c", "x"] = ["a", "b", "c", "x"] ∧
    ("z" ∉ exMatrixAB.stop_ids ∨ "b" ∉ exMatrixAB.stop_ids) ∧
    find_shortest_path exMatrixAB "z" "b" = none ∧
    (dijkstraRun exMatrixAB "a").dist (exMatrixAB.stop_ids.indexOf "b") = ⊤ ∧
    find_shortest_path exMatrixAB "a" "b" = none := by
  have hdist : (dijkstraRun exMatrixAB "a").dist (exMatrixAB.stop_ids.indexOf "b") = ⊤ := by
    decide
  exact ⟨by decide,
    (lookup_miss_fallbacks exMatrixABC ["a", "b", "c", "x"] "" "").1 (by decide),
    by decide,
    (lookup_miss_fallbacks exMatrixAB [] "z" "b").2.1 (by decide),
    hdist,
    (lookup_miss_fallbacks exMatrixAB [] "a" "b").2.2 hdist⟩

/-- Behaviour of the brute-force fold: the final accumulator is the initial
one or one of the candidate orders together with its cost, its cost never
increases, and its cost is at most the cost of every enumerated candidate. -/
lemma tsp_foldl_spec (d : ℕ → ℕ → ℚ) (firstStop : ℕ) :
    ∀ (perms : List (List ℕ)) (init : List ℕ × WithTop ℚ),
      (perms.foldl (tspStep d firstStop) init = init ∨
        ∃ p ∈ perms, perms.foldl (tspStep d firstStop) init =
          (firstStop :: p, (pathCost d (firstStop :: p) : WithTop ℚ))) ∧
      (perms.foldl (tspStep d firstStop) init).2 ≤ init.2 ∧
      ∀ p ∈ perms, (perms.foldl (tspStep d firstStop) init).2 ≤
        (pathCost d (firstStop :: p) : WithTop ℚ) := by
  intro perms
  induction perms with
  | nil =>
    intro init
    refine ⟨Or.inl rfl, le_refl _, ?_⟩
    intro p hp
    simp at hp
  | cons q qs ih =>
    intro init
    rw [List.foldl_cons]
    obtain ⟨hid, hle, hall⟩ := ih (tspStep d firstStop init q)
    have hstep_le : (tspStep d firstStop init q).2 ≤ init.2 := by
      rw [tspStep]
      split
      · exact le_of_lt (by assumption)
      · exact le_refl _
    have hstep_q : (tspStep d firstStop init q).2 ≤
        (pathCost d (firstStop :: q) : WithTop ℚ) := by
      rw [tspStep]
      split
      · exact le_refl _
      · exact le_of_not_lt (by assumption)
    refine ⟨?_, le_trans hle hstep_le, ?_⟩
    · rcases hid with h | ⟨p, hp, heq⟩
      · rw [h, tspStep]
        split
        · right
          exact ⟨q, List.mem_cons_self q qs, rfl⟩
        · left
          rfl
      · right
        exact ⟨p, List.mem_cons_of_mem q hp, heq⟩
    · intro p hp
      rcases List.mem_cons.mp hp with rfl | hp2
      · exact le_trans hle hstep_q
      · exact hall p hp2

/-- Resolving a valid first-occurrence index back through `getD` and
`indexOf` is the identity. -/
lemma indexOf_getD_roundtrip (l : List String) (s : String) (hs : s ∈ l) :
    l.getD (l.indexOf s) "" = s := by
  have hlt : l.indexOf s < l.length := List.indexOf_lt_length.mpr hs
  rw [List.getD_eq_getElem l "" hlt]
  exact List.getElem_indexOf hlt

/-- Claim C1: for every matrix and every request of 3 to 8 stop ids all
present in the matrix, `find_optimal_route_order` keeps the first input stop
as the start, and its total consecutive matrix distance is at most that of
the first stop followed by any permutation of the remaining stops. -/
theorem small_scale_tsp_is_optimal (m : PathMatrix) (a : String) (tl : List String)
    (h3 : 3 ≤ (a :: tl).length) (h8 : (a :: tl).length ≤ 8)
    (hmem : ∀ s ∈ a :: tl, s ∈ m.stop_ids) :
    (find_optimal_route_order m (a :: tl)).head? = some a ∧
    ∀ rest, List.Perm rest tl →
      idPathCost m (find_optimal_route_order m (a :: tl)) ≤ idPathCost m (a :: rest) := by
  have h2 : ¬ (a :: tl).length ≤ 2 := by omega
  have hfilter : (a :: tl).filter (fun s => m.stop_ids.contains s) = a :: tl := by
    apply List.filter_eq_self.mpr
    intro x hx
    simpa using hmem x hx
  have hlen : ¬ (((a :: tl).filter (fun s => m.stop_ids.contains s)).map
      (fun s => m.stop_ids.indexOf s)).length ≠ (a :: tl).length := by
    rw [hfilter]
    simp
  have hunfold : find_optimal_route_order m (a :: tl) =
      (((tl.map (fun s => m.stop_ids.indexOf s)).permutations.foldl
        (tspStep m.distance (m.stop_ids.indexOf a))
        (m.stop_ids.indexOf a :: tl.map (fun s => m.stop_ids.indexOf s), ⊤)).1).map
        (fun idx => m.stop_ids.getD idx "") := by
    rw [find_optimal_route_order, if_neg h2, if_pos h8, brute_force_tsp]
    dsimp only
    rw [if_neg hlen, hfilter, List.map_cons]
  obtain ⟨hid, hle, hall⟩ := tsp_foldl_spec m.distance (m.stop_ids.indexOf a)
    (tl.map (fun s => m.stop_ids.indexOf s)).permutations
    (m.stop_ids.indexOf a :: tl.map (fun s => m.stop_ids.indexOf s), ⊤)
  have hmemperm : tl.map (fun s => m.stop_ids.indexOf s) ∈
      (tl.map (fun s => m.stop_ids.indexOf s)).permutations :=
    List.mem_permutations.mpr (List.Perm.refl _)
  obtain ⟨p, hp, hReq⟩ : ∃ p ∈ (tl.map (fun s => m.stop_ids.indexOf s)).permutations,
      (tl.map (fun s => m.stop_ids.indexOf s)).permutations.foldl
        (tspStep m.distance (m.stop_ids.indexOf a))
        (m.stop_ids.indexOf a :: tl.map (fun s => m.stop_ids.indexOf s), ⊤) =
      (m.stop_ids.indexOf a :: p,
        (pathCost m.distance (m.stop_ids.indexOf a :: p) : WithTop ℚ)) := by
    rcases hid with h | h
    · exfalso
      have htop := hall _ hmemperm
      rw [h] at htop
      exact absurd htop (by simp)
    · exact h
  have hproundtrip : ∀ i ∈ m.stop_ids.indexOf a :: p,
      m.stop_ids.indexOf (m.stop_ids.getD i "") = i := by
    intro i hi
    have hi2 : i ∈ (a :: tl).map (fun s => m.stop_ids.indexOf s) := by
      rcases List.mem_cons.mp hi with rfl | hi3
      · simp
      · have := (List.mem_permutations.mp hp).mem_iff.mp hi3
        rw [List.map_cons]
        exact List.mem_cons_of_mem _ this
    obtain ⟨s, hs, rfl⟩ := List.mem_map.mp hi2
    rw [indexOf_getD_roundtrip m.stop_ids s (hmem s hs)]
  have hcosteq : idPathCost m (((m.stop_ids.indexOf a :: p)).map
      (fun idx => m.stop_ids.getD idx "")) =
      pathCost m.distance (m.stop_ids.indexOf a :: p) := by
    rw [idPathCost, List.map_map]
    congr 1
    calc (m.stop_ids.indexOf a :: p).map
          ((fun s => m.stop_ids.indexOf s) ∘ (fun idx => m.stop_ids.getD idx ""))
        = (m.stop_ids.indexOf a :: p).map id := List.map_congr_left hproundtrip
      _ = m.stop_ids.indexOf a :: p := List.map_id _
  constructor
  · rw [hunfold, hReq]
    simp only [List.map_cons, List.head?_cons]
    rw [indexOf_getD_roundtrip m.stop_ids a (hmem a (List.mem_cons_self a tl))]
  · intro rest hrest
    have hrestmem : rest.map (fun s => m.stop_ids.indexOf s) ∈
        (tl.map (fun s => m.stop_ids.indexOf s)).permutations :=
      List.mem_permutations.mpr (hrest.map _)
    have hbound := hall _ hrestmem
    rw [hReq] at hbound
    dsimp only at hbound
    have hbound2 : pathCost m.distance (m.stop_ids.indexOf a :: p) ≤
        pathCost m.distance
          (m.stop_ids.indexOf a :: rest.map (fun s => m.stop_ids.indexOf s)) := by
      exact_mod_cast hbound
    rw [hunfold, hReq, hcosteq, idPathCost, List.map_cons]
    exact hbound2

/-- Witness for claim C1 on the concrete 3-stop matrix: the request
`["a", "b", "c"]` keeps `a` first and beats the alternative order
`["a", "c", "b"]`. -/
theorem small_scale_tsp_is_optimal_witness :
    (3 ≤ (["a", "b", "c"] : List String).length ∧
      (["a", "b", "c"] : List String).length ≤ 8) ∧
    (find_optimal_route_order exMatrixABC ["a", "b", "c"]).head? = some "a" ∧
    idPathCost exMatrixABC (find_optimal_route_order exMatrixABC ["a", "b", "c"]) ≤
      idPathCost exMatrixABC ["a", "c", "b"] := by
  have h := small_scale_tsp_is_optimal exMatrixABC "a" ["b", "c"]
    (by decide) (by decide) (by decide)
  exact ⟨⟨by decide, by decide⟩, h.1, h.2 ["c", "b"] (List.Perm.swap "b" "c" [])⟩

/-- The running minimum of the nearest-neighbour scan is the start value or
one of the scanned elements. -/
lemma nn_fold_mem (d : ℕ → ℕ → ℚ) (current : ℕ) :
    ∀ (us : List ℕ) (u : ℕ),
      us.foldl (fun acc x => if d current x < d current acc then x else acc) u ∈ u :: us := by
  intro us
  induction us with
  | nil => intro u; exact List.mem_cons_self u []
  | cons v vs ih =>
    intro u
    rw [List.foldl_cons]
    have h := ih (if d current v < d current u then v else u)
    rcases List.mem_cons.mp h with h2 | h2
    · rw [h2]
      split
      · exact List.mem_cons_of_mem _ (List.mem_cons_self v vs)
      · exact List.mem_cons_self u _
    · exact List.mem_cons_of_mem _ (List.mem_cons_of_mem _ h2)

/-- Every stop visited by the nearest-neighbour loop comes from the
unvisited pool. -/
lemma nnLoop_subset (d : ℕ → ℕ → ℚ) :
    ∀ (fuel current : ℕ) (unvisited : List ℕ) (x : ℕ),
      x ∈ nnLoop d fuel current unvisited → x ∈ unvisited := by
  intro fuel
  induction fuel with
  | zero => intro current unvisited x hx; simp [nnLoop] at hx
  | succ k ih =>
    intro current unvisited x hx
    match unvisited with
    | [] => simp [nnLoop] at hx
    | u :: us =>
      rw [nnLoop] at hx
      rcases List.mem_cons.mp hx with rfl | hx2
      · exact nn_fold_mem d current us u
      · exact List.erase_subset _ _ (ih _ _ _ hx2)

/-- `filterMap` keeps the length when every element maps to `some`. -/
lemma filterMap_length_of_isSome {α β : Type} (f : α → Option β) :
    ∀ (l : List α), (∀ x ∈ l, (f x).isSome) → (l.filterMap f).length = l.length := by
  intro l
  induction l with
  | nil => intro _; rfl
  | cons x xs ih =>
    intro h
    rw [List.filterMap_cons]
    rcases hfx : f x with _ | b
    · exact absurd (h x (List.mem_cons_self x xs)) (by simp [hfx])
    · simp only [List.length_cons]
      rw [ih (fun y hy => h y (List.mem_cons_of_mem x hy))]

/-- The stop-dict lookup succeeds for every id of the stop list. -/
lemma stopDictFind_isSome (stops : List BusStop) (sid : String)
    (h : sid ∈ stops.map (fun s => s.id)) : (stopDictFind stops sid).isSome := by
  rw [stopDictFind, List.find?_isSome]
  obtain ⟨s, hs, rfl⟩ := List.mem_map.mp h
  exact ⟨s, List.mem_reverse.mpr hs, by simp⟩

/-- `_brute_force_tsp` always returns as many ids as requested. -/
lemma brute_force_tsp_length (m : PathMatrix) (stopIds : List String) :
    (brute_force_tsp m stopIds).length = stopIds.length := by
  rcases stopIds with _ | ⟨x, xs⟩
  · rfl
  · rw [brute_force_tsp]
    dsimp only
    by_cases hlen : (((x :: xs).filter (fun s => m.stop_ids.contains s)).map
        (fun s => m.stop_ids.indexOf s)).length ≠ (x :: xs).length
    · rw [if_pos hlen]
    · rw [if_neg hlen]
      push_neg at hlen
      rcases hind : ((x :: xs).filter (fun s => m.stop_ids.contains s)).map
          (fun s => m.stop_ids.indexOf s) with _ | ⟨f, r⟩
      · rw [hind] at hlen
      · rw [hind] at hlen
        dsimp only
        rw [List.length_map]
        obtain ⟨hid, hig1, hig2⟩ := tsp_foldl_spec m.distance f r.permutations (f :: r, ⊤)
        rcases hid with h | ⟨p, hp, h⟩
        · rw [h]
          exact hlen
        · rw [h]
          dsimp only
          rw [List.length_cons, (List.mem_permutations.mp hp).length_eq]
          rw [← List.length_cons f r]
          exact hlen

/-- `_nearest_neighbor_tsp` returns at least 2 stops for requests of at
least 2 ids. -/
lemma nearest_neighbor_tsp_length_ge (m : PathMatrix) (stopIds : List String)
    (h : 2 ≤ stopIds.length) : 2 ≤ (nearest_neighbor_tsp m stopIds).length := by
  rcases stopIds with _ | ⟨x, xs⟩
  · simp at h
  · rw [nearest_neighbor_tsp]
    dsimp only
    by_cases hlen : (((x :: xs).filter (fun s => m.stop_ids.contains s)).map
        (fun s => m.stop_ids.indexOf s)).length ≠ (x :: xs).length
    · rw [if_pos hlen]
      exact h
    · rw [if_neg hlen]
      push_neg at hlen
      rcases hind : ((x :: xs).filter (fun s => m.stop_ids.contains s)).map
          (fun s => m.stop_ids.indexOf s) with _ | ⟨f, r⟩
      · rw [hind] at hlen
        simp at hlen
      · rw [hind] at hlen
        dsimp only
        have hr : r.length = xs.length := by
          rw [List.length_cons, List.length_cons] at hlen
          omega
        have hrne : r ≠ [] := by
          intro h0
          rw [h0] at hr
          simp only [List.length_nil] at hr
          rw [List.length_cons] at h
          omega
        rcases hd : r.dedup with _ | ⟨u, us⟩
        · exact absurd ((List.dedup_eq_nil r).mp hd) hrne
        · rw [List.length_cons, nnLoop]
          simp

/-- `find_optimal_route_order` never shrinks a request below 2 stops. -/
lemma find_optimal_route_order_length_ge (m : PathMatrix) (stopIds : List String)
    (h : 2 ≤ stopIds.length) : 2 ≤ (find_optimal_route_order m stopIds).length := by
  rw [find_optimal_route_order]
  by_cases h2 : stopIds.length ≤ 2
  · rw [if_pos h2]
    exact h
  · rw [if_neg h2]
    by_cases h8 : stopIds.length ≤ 8
    · rw [if_pos h8, brute_force_tsp_length]
      exact h
    · rw [if_neg h8]
      exact nearest_neighbor_tsp_length_ge m _ h

/-- Every id returned by `find_optimal_route_order` is an id of the matrix,
provided every requested id is. -/
lemma find_optimal_route_order_mem (m : PathMatrix) (stopIds : List String)
    (hmem : ∀ s ∈ stopIds, s ∈ m.stop_ids) :
    ∀ x ∈ find_optimal_route_order m stopIds, x ∈ m.stop_ids := by
  have hindex : ∀ i ∈ (stopIds.filter (fun s => m.stop_ids.contains s)).map
      (fun s => m.stop_ids.indexOf s), m.stop_ids.getD i "" ∈ m.stop_ids := by
    intro i hi
    obtain ⟨s, hs, rfl⟩ := List.mem_map.mp hi
    have hsmem : s ∈ m.stop_ids := hmem s (List.mem_of_mem_filter hs)
    rw [indexOf_getD_roundtrip m.stop_ids s hsmem]
    exact hsmem
  rw [find_optimal_route_order]
  by_cases h2 : stopIds.length ≤ 2
  · rw [if_pos h2]
    exact hmem
  · rw [if_neg h2]
    rcases stopIds with _ | ⟨x, xs⟩
    · simp at h2
    · by_cases h8 : (x :: xs).length ≤ 8
      · rw [if_pos h8, brute_force_tsp]
        dsimp only
        by_cases hlen : (((x :: xs).filter (fun s => m.stop_ids.contains s)).map
            (fun s => m.stop_ids.indexOf s)).length ≠ (x :: xs).length
        · rw [if_pos hlen]
          exact hmem
        · rw [if_neg hlen]
          rcases hind : ((x :: xs).filter (fun s => m.stop_ids.contains s)).map
              (fun s => m.stop_ids.indexOf s) with _ | ⟨f, r⟩
          · dsimp only
            exact hmem
          · dsimp only
            intro y hy
            obtain ⟨i, hi, rfl⟩ := List.mem_map.mp hy
            have hif : i ∈ f :: r := by
              obtain ⟨hid, _, _⟩ := tsp_foldl_spec m.distance f r.permutations (f :: r, ⊤)
              rcases hid with hcase | ⟨p, hp, hcase⟩
              · rw [hcase] at hi
                exact hi
              · rw [hcase] at hi
                rcases List.mem_cons.mp hi with rfl | hi2
                · exact List.mem_cons_self _ _
                · exact List.mem_cons_of_mem _
                    ((List.mem_permutations.mp hp).mem_iff.mp hi2)
            apply hindex
            rw [hind]
            exact hif
      · rw [if_neg h8, nearest_neighbor_tsp]
        dsimp only
        by_cases hlen : (((x :: xs).filter (fun s => m.stop_ids.contains s)).map
            (fun s => m.stop_ids.indexOf s)).length ≠ (x :: xs).length
        · rw [if_pos hlen]
          exact hmem
        · rw [if_neg hlen]
          rcases hind : ((x :: xs).filter (fun s => m.stop_ids.contains s)).map
              (fun s => m.stop_ids.indexOf s) with _ | ⟨f, r⟩
          · dsimp only
            exact hmem
          · dsimp only
            intro y hy
            obtain ⟨i, hi, rfl⟩ := List.mem_map.mp hy
            have hif : i ∈ f :: r := by
              rcases List.mem_cons.mp hi with rfl | hi2
              · exact List.mem_cons_self _ _
              · exact List.mem_cons_of_mem _
                  (List.dedup_subset r (nnLoop_subset m.distance _ _ _ _ hi2))
            apply hindex
            rw [hind]
            exact hif

/-- Claim C2: for every valid input route (at least 2 stops) and the path
matrix built over exactly that route's stops (as `optimize_route` does), the
route generated by `_generate_optimized_route` has at least 2 stops — the
reordering, coverage-gap additions, bottleneck-removal step and accessibility
normalization never shrink the stop list below 2, whatever the analysis
results contain. -/
theorem optimized_route_has_min_two_stops (dist : Coordinates → Coordinates → ℚ)
    (freshId : ℕ → String) (freshRouteId today : String) (originalRoute : Route)
    (routeAnalysis : RouteAnalysisResult)
    (populationAnalysis : Option PopulationAnalysisResult) (pathMatrix : PathMatrix)
    (hm : pathMatrix.stop_ids = originalRoute.stops.map (fun s => s.id))
    (h2 : 2 ≤ originalRoute.stops.length) :
    2 ≤ (generate_optimized_route dist freshId freshRouteId today originalRoute
      routeAnalysis populationAnalysis pathMatrix).stops.length := by
  rw [generate_optimized_route.eq_def]
  dsimp only
  have h1 : 2 ≤ (if 2 < originalRoute.stops.length then
      (find_optimal_route_order pathMatrix
        (originalRoute.stops.map (fun s => s.id))).filterMap
        (fun sid => stopDictFind originalRoute.stops sid)
    else originalRoute.stops).length := by
    split
    · rw [filterMap_length_of_isSome]
      · exact find_optimal_route_order_length_ge pathMatrix _ (by simpa using h2)
      · intro sid hsid
        apply stopDictFind_isSome
        have hmem0 : ∀ s ∈ originalRoute.stops.map (fun s => s.id), s ∈ pathMatrix.stop_ids := by
          rw [hm]
          intro s hs
          exact hs
        have hmem1 := find_optimal_route_order_mem pathMatrix _ hmem0 sid hsid
        rw [hm] at hmem1
        exact hmem1
    · exact h2
  rw [improve_accessibility, List.length_map]
  have hremove : ∀ (y : List BusStop),
      (if routeAnalysis.bottlenecks ≠ [] then
        remove_bottleneck_stops y routeAnalysis.bottlenecks else y) = y := by
    intro y
    split
    · exact remove_bottleneck_stops_eq y routeAnalysis.bottlenecks
    · rfl
  rw [hremove]
  match populationAnalysis with
  | none => exact h1
  | some pa =>
    dsimp only
    split
    · rw [List.length_append]
      omega
    · exact h1

/-- Witness for claim C2 at a concrete 2-stop route with its aligned matrix. -/
theorem optimized_route_has_min_two_stops_witness :
    (exMatrixRoute.stop_ids = exRouteX.stops.map (fun s => s.id) ∧
      2 ≤ exRouteX.stops.length) ∧
    2 ≤ (generate_optimized_route distZero (fun _ => "gap-stop") "route-2" "2026-01-01"
      exRouteX exAnalysis none exMatrixRoute).stops.length :=
  ⟨⟨by decide, by decide⟩,
   optimized_route_has_min_two_stops distZero (fun _ => "gap-stop") "route-2" "2026-01-01"
     exRouteX exAnalysis none exMatrixRoute (by decide) (by decide)⟩

/-- `stableInsert` inserts exactly the new element. -/
lemma stableInsert_perm {α : Type} (le : α → α → Bool) (a : α) :
    ∀ (l : List α), List.Perm (stableInsert le a l) (a :: l) := by
  intro l
  induction l with
  | nil => exact List.Perm.refl _
  | cons b m ih =>
    rw [stableInsert]
    split
    · exact List.Perm.refl _
    · exact List.Perm.trans (List.Perm.cons b ih) (List.Perm.swap a b m)

/-- `stableSort` permutes its input. -/
lemma stableSort_perm {α : Type} (le : α → α → Bool) :
    ∀ (l : List α), List.Perm (stableSort le l) l := by
  intro l
  induction l with
  | nil => exact List.Perm.refl _
  | cons a m ih =>
    rw [stableSort]
    exact List.Perm.trans (stableInsert_perm le a (stableSort le m)) (List.Perm.cons a ih)

/-- Membership in a `stableInsert`. -/
lemma mem_stableInsert {α : Type} (le : α → α → Bool) (a x : α) :
    ∀ (l : List α), x ∈ stableInsert le a l ↔ x = a ∨ x ∈ l := by
  intro l
  induction l with
  | nil => simp [stableInsert]
  | cons b m ih =>
    rw [stableInsert]
    split
    · simp [List.mem_cons]
    · simp only [List.mem_cons, ih]
      tauto

/-- Every list is sorted under the trivial relation. -/
lemma sorted_trivial {α : Type} : ∀ (l : List α), l.Sorted (fun _ _ => True) := by
  intro l
  induction l with
  | nil => exact List.sorted_nil
  | cons a m ih => exact List.sorted_cons.mpr ⟨fun _ _ => trivial, ih⟩

/-- Stability of `stableInsert`: inserting into a list sorted under the
composite order `le`-then-`r` preserves that order, provided the inserted
element is `r`-below everything already present (it came earlier in the
original list). -/
lemma stableInsert_sorted {α : Type} (le : α → α → Prop) [DecidableRel le]
    (htot : ∀ a b, le a b ∨ le b a) (htrans : ∀ a b c, le a b → le b c → le a c)
    (r : α → α → Prop) (a : α) :
    ∀ (l : List α),
      l.Sorted (fun x y => le x y ∧ (le y x → r x y)) →
      (∀ y ∈ l, r a y) →
      (stableInsert (fun x y => decide (le x y)) a l).Sorted
        (fun x y => le x y ∧ (le y x → r x y)) := by
  intro l
  induction l with
  | nil => intro _ _; exact List.sorted_singleton a
  | cons b m ih =>
    intro hsort ha
    obtain ⟨hbm, hmsort⟩ := List.sorted_cons.mp hsort
    rw [stableInsert]
    by_cases hab : le a b
    · rw [if_pos (decide_eq_true hab)]
      refine List.sorted_cons.mpr ⟨?_, hsort⟩
      intro z hz
      rcases List.mem_cons.mp hz with rfl | hz2
      · exact ⟨hab, fun _ => ha z (List.mem_cons_self z m)⟩
      · exact ⟨htrans a b z hab (hbm z hz2).1,
          fun _ => ha z (List.mem_cons_of_mem b hz2)⟩
    · rw [if_neg (by simpa using hab)]
      have hba : le b a := (htot a b).resolve_left hab
      refine List.sorted_cons.mpr ⟨?_, ?_⟩
      · intro z hz
        rcases (mem_stableInsert _ a z m).mp hz with rfl | hz2
        · exact ⟨hba, fun hab2 => absurd hab2 hab⟩
        · exact hbm z hz2
      · exact ih hmsort (fun y hy => ha y (List.mem_cons_of_mem b hy))

/-- Stability of `stableSort`: sorting a list already sorted under `r` by the
total preorder `le` yields a list sorted under the lexicographic combination
"`le`, ties broken by `r`". -/
lemma stableSort_sorted {α : Type} (le : α → α → Prop) [DecidableRel le]
    (htot : ∀ a b, le a b ∨ le b a) (htrans : ∀ a b c, le a b → le b c → le a c)
    (r : α → α → Prop) :
    ∀ (l : List α), l.Sorted r →
      (stableSort (fun x y => decide (le x y)) l).Sorted
        (fun x y => le x y ∧ (le y x → r x y)) := by
  intro l
  induction l with
  | nil => intro _; exact List.sorted_nil
  | cons a m ih =>
    intro hsort
    obtain ⟨ham, hmsort⟩ := List.sorted_cons.mp hsort
    rw [stableSort]
    apply stableInsert_sorted le htot htrans r a _ (ih hmsort)
    intro y hy
    exact ham y ((stableSort_perm _ m).mem_iff.mp hy)

/-- Two sorted permutations of each other are equal, provided the order is
antisymmetric on the elements of the list. -/
lemma eq_of_perm_of_sorted_local {α : Type} (R : α → α → Prop) :
    ∀ (l₁ l₂ : List α), List.Perm l₁ l₂ → l₁.Sorted R → l₂.Sorted R →
      (∀ a ∈ l₁, ∀ b ∈ l₁, R a b → R b a → a = b) → l₁ = l₂ := by
  intro l₁
  induction l₁ with
  | nil =>
    intro l₂ hp _ _ _
    exact hp.nil_eq
  | cons a t₁ ih =>
    intro l₂ hp hs₁ hs₂ hanti
    rcases l₂ with _ | ⟨b, t₂⟩
    · exact absurd hp.eq_nil (by simp)
    · have hab : a = b := by
        by_cases heq : a = b
        · exact heq
        · have ha2 : a ∈ t₂ := by
            rcases List.mem_cons.mp (hp.mem_iff.mp (List.mem_cons_self a t₁)) with h | h
            · exact absurd h heq
            · exact h
          have hb1 : b ∈ t₁ := by
            rcases List.mem_cons.mp (hp.mem_iff.mpr (List.mem_cons_self b t₂)) with h | h
            · exact absurd h.symm heq
            · exact h
          exact hanti a (List.mem_cons_self a t₁) b (List.mem_cons_of_mem a hb1)
            ((List.sorted_cons.mp hs₁).1 b hb1) ((List.sorted_cons.mp hs₂).1 a ha2)
      subst hab
      rw [ih t₂ hp.cons_inv (List.sorted_cons.mp hs₁).2 (List.sorted_cons.mp hs₂).2
        (fun x hx y hy => hanti x (List.mem_cons_of_mem a hx) y (List.mem_cons_of_mem a hy))]

/-- The secondary-then-primary stable-sort pipeline gives the same output for
any two permutations of the same input, provided the combined sort key is
antisymmetric on the input's elements. -/
lemma stable_two_pass_unique {α : Type} (le₁ le₂ : α → α → Prop)
    [DecidableRel le₁] [DecidableRel le₂]
    (htot₁ : ∀ a b, le₁ a b ∨ le₁ b a) (htrans₁ : ∀ a b c, le₁ a b → le₁ b c → le₁ a c)
    (htot₂ : ∀ a b, le₂ a b ∨ le₂ b a) (htrans₂ : ∀ a b c, le₂ a b → le₂ b c → le₂ a c)
    (l₁ l₂ : List α) (hp : List.Perm l₁ l₂)
    (hanti : ∀ a ∈ l₁, ∀ b ∈ l₁, le₂ a b → le₂ b a → le₁ a b → le₁ b a → a = b) :
    stableSort (fun x y => decide (le₂ x y)) (stableSort (fun x y => decide (le₁ x y)) l₁) =
    stableSort (fun x y => decide (le₂ x y)) (stableSort (fun x y => decide (le₁ x y)) l₂) := by
  have hsorted : ∀ (l : List α),
      (stableSort (fun x y => decide (le₂ x y))
        (stableSort (fun x y => decide (le₁ x y)) l)).Sorted
        (fun x y => le₂ x y ∧ (le₂ y x → le₁ x y)) := by
    intro l
    apply stableSort_sorted le₂ htot₂ htrans₂ le₁
    have h1 := stableSort_sorted le₁ htot₁ htrans₁ (fun _ _ => True) l (sorted_trivial l)
    exact h1.imp (fun h => h.1)
  have hp1 : List.Perm (stableSort (fun x y => decide (le₂ x y))
      (stableSort (fun x y => decide (le₁ x y)) l₁)) l₁ :=
    ((stableSort_perm _ _).trans (stableSort_perm _ _))
  have hp2 : List.Perm (stableSort (fun x y => decide (le₂ x y))
      (stableSort (fun x y => decide (le₁ x y)) l₂)) l₂ :=
    ((stableSort_perm _ _).trans (stableSort_perm _ _))
  apply eq_of_perm_of_sorted_local (fun x y => le₂ x y ∧ (le₂ y x → le₁ x y))
  · exact (hp1.trans hp).trans hp2.symm
  · exact hsorted l₁
  · exact hsorted l₂
  · intro a ha b hb hRab hRba
    exact hanti a (hp1.mem_iff.mp ha) b (hp1.mem_iff.mp hb)
      hRab.1 hRba.1 (hRab.2 hRba.1) (hRba.2 hRab.1)

/-- Claim C3 (amended): ranking is input-order independent provided no two
distinct results in the list share both the criterion score and the original
route id (the combined sort key is then injective on the list). For every
permutation of the input, `rank_optimization_results` yields the identical
output order. -/
theorem rank_results_input_order_independent (l₁ l₂ : List OptimizationResult)
    (criteria : RankingCriteria) (hp : List.Perm l₁ l₂)
    (hinj : ∀ a ∈ l₁, ∀ b ∈ l₁,
      calculate_ranking_score a criteria = calculate_ranking_score b criteria →
      a.original_route_id = b.original_route_id → a = b) :
    rank_optimization_results l₁ criteria = rank_optimization_results l₂ criteria := by
  rcases l₁ with _ | ⟨x, t₁⟩
  · rw [hp.nil_eq.symm]
  · rcases l₂ with _ | ⟨y, t₂⟩
    · exact absurd hp.eq_nil (by simp)
    · rw [rank_optimization_results, rank_optimization_results]
      have hkey := stable_two_pass_unique
        (fun (a b : OptimizationResult × ℚ) =>
          a.1.original_route_id ≤ b.1.original_route_id)
        (fun (a b : OptimizationResult × ℚ) => b.2 ≤ a.2)
        (fun a b => le_total _ _) (fun a b c hab hbc => le_trans hab hbc)
        (fun a b => le_total _ _) (fun a b c hab hbc => le_trans hbc hab)
        ((x :: t₁).map (fun r => (r, calculate_ranking_score r criteria)))
        ((y :: t₂).map (fun r => (r, calculate_ranking_score r criteria)))
        (hp.map _) ?hanti
      case hanti =>
        intro a ha b hb h2ab h2ba h1ab h1ba
        obtain ⟨ra, hra, rfl⟩ := List.mem_map.mp ha
        obtain ⟨rb, hrb, rfl⟩ := List.mem_map.mp hb
        have hscore : calculate_ranking_score ra criteria =
            calculate_ranking_score rb criteria := le_antisymm h2ba h2ab
        have hid : ra.original_route_id = rb.original_route_id := le_antisymm h1ab h1ba
        rw [hinj ra hra rb hrb hscore hid]
      rw [hkey]

/-- Witness for the amended claim C3: two results with distinct route ids are
ranked identically from either input order. -/
theorem rank_results_input_order_independent_witness :
    List.Perm [exResultX, exResultB] [exResultB, exResultX] ∧
    rank_optimization_results [exResultX, exResultB] RankingCriteria.overall_score =
      rank_optimization_results [exResultB, exResultX] RankingCriteria.overall_score := by
  have hperm : List.Perm [exResultX, exResultB] [exResultB, exResultX] :=
    List.Perm.swap exResultB exResultX []
  refine ⟨hperm, rank_results_input_order_independent _ _ _ hperm ?_⟩
  intro a ha b hb hscore hid
  rcases List.mem_cons.mp ha with rfl | ha2
  · rcases List.mem_cons.mp hb with rfl | hb2
    · rfl
    · rcases List.mem_cons.mp hb2 with rfl | hb3
      · exact absurd (by rw [hid]) (by decide :
          ¬ exResultX.original_route_id = exResultB.original_route_id)
      · simp at hb3
  · rcases List.mem_cons.mp ha2 with rfl | ha3
    · rcases List.mem_cons.mp hb with rfl | hb2
      · exact absurd (by rw [hid]) (by decide :
          ¬ exResultB.original_route_id = exResultX.original_route_id)
      · rcases List.mem_cons.mp hb2 with rfl | hb3
        · rfl
        · simp at hb3
    · simp at ha3

/-- Claim C3 (counterexample): two distinct results that share the original
route id and the metrics (hence the same ranking score) keep their input
order through both stable sorts, so ranking a shuffled copy yields a
different output order — ranking is not input-order independent for every
list. -/
theorem rank_results_shuffle_counterexample :
    rank_optimization_results [exResultX, exResultY] RankingCriteria.overall_score ≠
      rank_optimization_results [exResultY, exResultX] RankingCriteria.overall_score := by
  have hscoreX : calculate_ranking_score exResultX RankingCriteria.overall_score = 0 := by
    norm_num [calculate_ranking_score, OptimizationMetrics.get_overall_score,
      exResultX, exMetrics0]
  have hscoreY : calculate_ranking_score exResultY RankingCriteria.overall_score = 0 := by
    norm_num [calculate_ranking_score, OptimizationMetrics.get_overall_score,
      exResultY, exMetrics0]
  have hXY : rank_optimization_results [exResultX, exResultY]
      RankingCriteria.overall_score = [exResultX, exResultY] := by
    rw [rank_optimization_results]
    simp only [List.map_cons, List.map_nil, hscoreX, hscoreY, stableSort, stableInsert]
    norm_num [stableSort, stableInsert, exResultX, exResultY]
  have hYX : rank_optimization_results [exResultY, exResultX]
      RankingCriteria.overall_score = [exResultY, exResultX] := by
    rw [rank_optimization_results]
    simp only [List.map_cons, List.map_nil, hscoreX, hscoreY, stableSort, stableInsert]
    norm_num [stableSort, stableInsert, exResultX, exResultY]
  rw [hXY, hYX]
  intro h
  have hx : exResultX = exResultY := (List.cons.injEq _ _ _ _ ▸ h).1
  have hname : exResultX.optimized_route.name = exResultY.optimized_route.name := by
    rw [hx]
  exact absurd hname (by decide)
